import Mathlib

/-!
# kms-core: SDP negotiation guards and the pipeline's reusable-socket pool

A shallow embedding of

* `SdpEndpointImpl::generateOffer`, `processOffer`, `processAnswer`,
  `getLocalSessionDescriptor` and the helper `str_to_sdp`
  (`src/server/implementation/objects/SdpEndpointImpl.cpp`);
* `MediaPipelineImpl::setSockets`, `getSockets`, `setLatencyStats`, `addElement`
  and the destructor (`src/server/implementation/objects/MediaPipelineImpl.cpp`).

Every member function becomes a pure function from the object state before the call
to the state after it, together with the value returned or the `KurentoException`
thrown and the list of outward effects (signals emitted on the element, properties
set on the pipeline or on a child element).  The media engine behind the element and
the GStreamer SDP library are not part of the repository: what they answer during
one call is a parameter of that call.
-/

namespace kurento

/-! ## Exceptions -/

/-- Codes of `KurentoException` thrown by the two source files. -/
inductive ErrorCode where
  | SDP_CREATE_ERROR
  | SDP_PARSE_ERROR
  | SDP_END_POINT_ALREADY_NEGOTIATED
  | SDP_END_POINT_GENERATE_OFFER_ERROR
  | SDP_END_POINT_PROCESS_OFFER_ERROR
  | SDP_END_POINT_NOT_OFFER_GENERATED
  | SDP_END_POINT_ANSWER_ALREADY_PROCCESED
  | SDP_END_POINT_PROCESS_ANSWER_ERROR
  | SDP_END_POINT_NO_LOCAL_SDP_ERROR
  | SDP_END_POINT_NO_REMOTE_SDP_ERROR
  | SDP_END_POINT_CANNOT_CREATE_SESSON
  | MEDIA_OBJECT_NOT_AVAILABLE
  deriving DecidableEq, Repr

/-- A thrown `KurentoException (code, message)`. -/
structure KurentoException where
  code : ErrorCode
  message : String
  deriving DecidableEq, Repr

/-! ## Sockets, SDP messages, effects -/

/-- A `GSocket *`: an address, `0` being the null pointer. -/
abbrev GSocket := Nat

/-- The null pointer. -/
def NULL : GSocket := 0

/-- A `GstElement *` handed to `addElement`: an address. -/
abbrev GstElementPtr := Nat

/-- A `GstSDPMessage`, seen through the two accessors the code applies to it:
`gst_sdp_message_get_version` (`none` for a null result) and `gst_sdp_message_as_text`. -/
structure GstSDPMessage where
  version : Option String
  as_text : String
  deriving DecidableEq, Repr

/-- Outward effects of a call, in program order. -/
inductive Event where
  /-- An action signal emitted on the element: `g_signal_emit_by_name (element, name, sessId, ...)`. -/
  | emit (signalName : String) (sessId : String)
  /-- The event `signalMediaSessionStarted (event)`. -/
  | MediaSessionStarted
  /-- The property write `g_object_set (pipeline, "rtp-socket-close", sock, NULL)`. -/
  | rtp_socket_close (sock : GSocket)
  /-- The property write `g_object_set (element, "media-stats", value, NULL)` on a child. -/
  | media_stats (element : GstElementPtr) (value : Bool)
  deriving DecidableEq, Repr

/-- The part of the GStreamer SDP library that `str_to_sdp` calls. -/
structure GstSdp where
  /-- Whether `gst_sdp_message_new` returns `GST_SDP_OK`. -/
  gst_sdp_message_new : Bool
  /-- The message filled by `gst_sdp_message_parse_buffer` when it returns `GST_SDP_OK`. -/
  gst_sdp_message_parse_buffer : String → Option GstSDPMessage

/-- What the media engine behind `element` answers to the signals emitted during one call. -/
structure Engine where
  /-- The offer written by `generate-offer` (`none` for `NULL`). -/
  generate_offer : Option GstSDPMessage
  /-- The answer written by `process-offer` (`none` for `NULL`). -/
  process_offer : GstSDPMessage → Option GstSDPMessage
  /-- The `gboolean` written by `process-answer`. -/
  process_answer : GstSDPMessage → Bool
  /-- The description written by `get-local-sdp` (`none` for `NULL`). -/
  get_local_sdp : Option GstSDPMessage
  /-- The description written by `get-remote-sdp` (`none` for `NULL`). -/
  get_remote_sdp : Option GstSDPMessage
  /-- The socket written by `get-set-rtp-socket-audio`, given the hint passed in. -/
  get_set_rtp_socket_audio : GSocket → GSocket
  /-- The socket written by `get-set-rtcp-socket-audio`, given the hint passed in. -/
  get_set_rtcp_socket_audio : GSocket → GSocket
  /-- The socket written by `get-set-rtp-socket-video`, given the hint passed in. -/
  get_set_rtp_socket_video : GSocket → GSocket
  /-- The socket written by `get-set-rtcp-socket-video`, given the hint passed in. -/
  get_set_rtcp_socket_video : GSocket → GSocket

/-! ## `MediaPipelineImpl` -/

/-- A child object as the pipeline sees it: whether `KMS_IS_ELEMENT` holds of it and the
value of its `media-stats` property. -/
structure GstElement where
  KMS_IS_ELEMENT : Bool
  media_stats : Bool
  deriving DecidableEq, Repr

/-- The members of `MediaPipelineImpl` that the modelled functions read or write, the
children of `GST_BIN (pipeline)` (in iteration order) and the objects they point to. -/
structure MediaPipelineImpl where
  latencyStats : Bool
  bin : List GstElementPtr
  heap : GstElementPtr → GstElement
  rtp_socket_reuse_audio : GSocket
  rtcp_socket_reuse_audio : GSocket
  rtp_socket_reuse_video : GSocket
  rtcp_socket_reuse_video : GSocket

/-- `MediaPipelineImpl::getSockets` called with four non-null out-pointers. -/
def MediaPipelineImpl.getSockets (self : MediaPipelineImpl) :
    GSocket × GSocket × GSocket × GSocket :=
  (self.rtp_socket_reuse_audio, self.rtcp_socket_reuse_audio,
    self.rtp_socket_reuse_video, self.rtcp_socket_reuse_video)

/-- `MediaPipelineImpl::setSockets`: the pipeline after the call and the
`rtp-socket-close` writes it issued, in program order. -/
def MediaPipelineImpl.setSockets (self : MediaPipelineImpl)
    (rtp_socket_audio rtcp_socket_audio rtp_socket_video rtcp_socket_video : GSocket) :
    MediaPipelineImpl × List Event :=
  let ev1 : List Event :=
    if self.rtp_socket_reuse_audio ≠ NULL ∧ self.rtp_socket_reuse_audio ≠ rtp_socket_audio
    then [Event.rtp_socket_close self.rtp_socket_reuse_audio] else []
  let self1 := { self with rtp_socket_reuse_audio := rtp_socket_audio }
  let ev2 : List Event :=
    if self1.rtcp_socket_reuse_audio ≠ NULL ∧ self1.rtcp_socket_reuse_audio ≠ rtcp_socket_audio
    then [Event.rtp_socket_close self1.rtcp_socket_reuse_audio] else []
  let self2 := { self1 with rtcp_socket_reuse_audio := rtcp_socket_audio }
  let ev3 : List Event :=
    if self2.rtp_socket_reuse_video ≠ NULL ∧ self2.rtp_socket_reuse_video ≠ rtp_socket_video
    then [Event.rtp_socket_close self2.rtp_socket_reuse_video] else []
  let self3 := { self2 with rtp_socket_reuse_video := rtp_socket_video }
  let ev4 : List Event :=
    if self3.rtcp_socket_reuse_video ≠ NULL ∧ self3.rtcp_socket_reuse_video ≠ rtcp_socket_video
    then [Event.rtp_socket_close self3.rtcp_socket_reuse_video] else []
  let self4 := { self3 with rtcp_socket_reuse_video := rtcp_socket_video }
  (self4, ev1 ++ ev2 ++ ev3 ++ ev4)

/-- The socket part of `MediaPipelineImpl::~MediaPipelineImpl`: the four slots after it
and the `rtp-socket-close` writes it issued, in program order. -/
def MediaPipelineImpl.destructor (self : MediaPipelineImpl) : MediaPipelineImpl × List Event :=
  let ev1 : List Event :=
    if self.rtp_socket_reuse_audio ≠ NULL
    then [Event.rtp_socket_close self.rtp_socket_reuse_audio] else []
  let self1 :=
    if self.rtp_socket_reuse_audio ≠ NULL
    then { self with rtp_socket_reuse_audio := NULL } else self
  let ev2 : List Event :=
    if self1.rtcp_socket_reuse_audio ≠ NULL
    then [Event.rtp_socket_close self1.rtcp_socket_reuse_audio] else []
  let self2 :=
    if self1.rtcp_socket_reuse_audio ≠ NULL
    then { self1 with rtcp_socket_reuse_audio := NULL } else self1
  let ev3 : List Event :=
    if self2.rtp_socket_reuse_video ≠ NULL
    then [Event.rtp_socket_close self2.rtp_socket_reuse_video] else []
  let self3 :=
    if self2.rtp_socket_reuse_video ≠ NULL
    then { self2 with rtp_socket_reuse_video := NULL } else self2
  let ev4 : List Event :=
    if self3.rtcp_socket_reuse_video ≠ NULL
    then [Event.rtp_socket_close self3.rtcp_socket_reuse_video] else []
  let self4 :=
    if self3.rtcp_socket_reuse_video ≠ NULL
    then { self3 with rtcp_socket_reuse_video := NULL } else self3
  (self4, ev1 ++ ev2 ++ ev3 ++ ev4)

/-- The spec's replacement rule for one slot, in its own words: replacing a non-empty
slot with a different handle closes the old handle, replacing it with the identical
handle, or filling an empty slot, closes nothing. -/
def spec_slot_replacement (old new : GSocket) : List Event :=
  if old = NULL then []
  else if new = old then []
  else [Event.rtp_socket_close old]

/-- The four slots of the pool, in the order audio RTP, audio RTCP, video RTP, video RTCP. -/
def MediaPipelineImpl.slots (self : MediaPipelineImpl) : List GSocket :=
  [self.rtp_socket_reuse_audio, self.rtcp_socket_reuse_audio,
    self.rtp_socket_reuse_video, self.rtcp_socket_reuse_video]

/-! ### Latency statistics -/

/-- Results of `gst_iterator_next`. -/
inductive GstIteratorResult where
  | GST_ITERATOR_DONE
  | GST_ITERATOR_OK (item : GstElementPtr)
  | GST_ITERATOR_RESYNC
  | GST_ITERATOR_ERROR
  deriving DecidableEq, Repr

/-- The iterator returned by `gst_bin_iterate_elements`: the children of the bin when it
was created and those not yet visited.  `setLatencyStats` holds `recMutex` during the
whole walk, so the bin does not change under the iterator. -/
structure GstIterator where
  all : List GstElementPtr
  rest : List GstElementPtr

/-- The iterator of `gst_bin_iterate_elements (GST_BIN (pipeline))`. -/
def gst_bin_iterate_elements (bin : List GstElementPtr) : GstIterator :=
  { all := bin, rest := bin }

/-- The call `gst_iterator_next (it, &item)`. -/
def gst_iterator_next (it : GstIterator) : GstIteratorResult × GstIterator :=
  match it.rest with
  | [] => (GstIteratorResult.GST_ITERATOR_DONE, it)
  | e :: r => (GstIteratorResult.GST_ITERATOR_OK e, { it with rest := r })

/-- The call `gst_iterator_resync (it)`. -/
def gst_iterator_resync (it : GstIterator) : GstIterator :=
  { it with rest := it.all }

/-- The write `g_object_set (element, "media-stats", value, NULL)` on the object store. -/
def set_media_stats (heap : GstElementPtr → GstElement) (element : GstElementPtr)
    (value : Bool) : GstElementPtr → GstElement :=
  fun p => if p = element then { heap p with media_stats := value } else heap p

/-- The `while (!done)` loop of `MediaPipelineImpl::setLatencyStats`, one iteration per
unit of fuel; `none` when the fuel runs out before `done` is set. -/
def setLatencyStats_loop (latencyStats : Bool) :
    Nat → GstIterator → (GstElementPtr → GstElement) → List Event →
      Option ((GstElementPtr → GstElement) × List Event)
  | 0, _, _, _ => none
  | fuel + 1, it, heap, events =>
    match gst_iterator_next it with
    | (GstIteratorResult.GST_ITERATOR_OK element, it1) =>
      if (heap element).KMS_IS_ELEMENT then
        setLatencyStats_loop latencyStats fuel it1 (set_media_stats heap element latencyStats)
          (events ++ [Event.media_stats element latencyStats])
      else
        setLatencyStats_loop latencyStats fuel it1 heap events
    | (GstIteratorResult.GST_ITERATOR_RESYNC, it1) =>
      setLatencyStats_loop latencyStats fuel (gst_iterator_resync it1) heap events
    | (GstIteratorResult.GST_ITERATOR_ERROR, _) => some (heap, events)
    | (GstIteratorResult.GST_ITERATOR_DONE, _) => some (heap, events)

/-- `MediaPipelineImpl::getLatencyStats`. -/
def MediaPipelineImpl.getLatencyStats (self : MediaPipelineImpl) : Bool :=
  self.latencyStats

/-- `MediaPipelineImpl::setLatencyStats`: the pipeline after the call and the
`media-stats` writes it issued.  The loop gets one unit of fuel more than the bin has
children. -/
def MediaPipelineImpl.setLatencyStats (self : MediaPipelineImpl) (latencyStats : Bool) :
    Option (MediaPipelineImpl × List Event) :=
  if self.latencyStats = latencyStats then some (self, [])
  else
    let self1 := { self with latencyStats := latencyStats }
    let it := gst_bin_iterate_elements self1.bin
    match setLatencyStats_loop latencyStats (self1.bin.length + 1) it self1.heap [] with
    | none => none
    | some (heap, events) => some ({ self1 with heap := heap }, events)

/-- `MediaPipelineImpl::addElement`; `gst_bin_add` is the value returned by
`gst_bin_add (GST_BIN (pipeline), element)`, on success the element becomes a child of
the bin.  Returns `ret`, the pipeline after the call and the `media-stats` write issued. -/
def MediaPipelineImpl.addElement (self : MediaPipelineImpl) (gst_bin_add : Bool)
    (element : GstElementPtr) : Bool × MediaPipelineImpl × List Event :=
  let events : List Event :=
    if (self.heap element).KMS_IS_ELEMENT
    then [Event.media_stats element self.latencyStats] else []
  let heap :=
    if (self.heap element).KMS_IS_ELEMENT
    then set_media_stats self.heap element self.latencyStats else self.heap
  let ret := gst_bin_add
  let bin := if ret then element :: self.bin else self.bin
  (ret, { self with heap := heap, bin := bin }, events)

/-- A call on the pipeline's latency-statistics interface. -/
inductive PipelineCall where
  | addElement (gst_bin_add : Bool) (element : GstElementPtr)
  | setLatencyStats (latencyStats : Bool)
  deriving DecidableEq, Repr

/-- The pipeline after one call and the `media-stats` writes of the call. -/
def MediaPipelineImpl.call (self : MediaPipelineImpl) :
    PipelineCall → Option (MediaPipelineImpl × List Event)
  | PipelineCall.addElement r e =>
    let out := self.addElement r e
    some (out.2.1, out.2.2)
  | PipelineCall.setLatencyStats v => self.setLatencyStats v

/-- The pipeline after a sequence of calls, with all `media-stats` writes in order. -/
def MediaPipelineImpl.calls (self : MediaPipelineImpl) :
    List PipelineCall → Option (MediaPipelineImpl × List Event)
  | [] => some (self, [])
  | c :: cs =>
    match self.call c with
    | none => none
    | some (self1, ev1) =>
      match MediaPipelineImpl.calls self1 cs with
      | none => none
      | some (self2, ev2) => some (self2, ev1 ++ ev2)

/-- The pipeline left by the constructor `MediaPipelineImpl::MediaPipelineImpl`: an empty
bin, `latencyStats = false` (its in-class initialiser) and four null socket slots;
`heap` gives the objects that later calls may point to. -/
def MediaPipelineImpl.new (heap : GstElementPtr → GstElement) : MediaPipelineImpl :=
  { latencyStats := false, bin := [], heap := heap,
    rtp_socket_reuse_audio := NULL, rtcp_socket_reuse_audio := NULL,
    rtp_socket_reuse_video := NULL, rtcp_socket_reuse_video := NULL }

/-- The invariant of the latency-statistics interface: every child of the bin that is a
`KmsElement` has `media-stats` equal to the pipeline's `latencyStats`. -/
def MediaPipelineImpl.statsInvariant (self : MediaPipelineImpl) : Prop :=
  ∀ e ∈ self.bin, (self.heap e).KMS_IS_ELEMENT = true →
    (self.heap e).media_stats = self.latencyStats

/-! ## `SdpEndpointImpl` -/

/-- The members of `SdpEndpointImpl` that the negotiation functions read or write. -/
structure SdpEndpointImpl where
  sessId : String
  isrtpendpoint : Bool
  dosocketreuse : Bool
  offerInProcess : Bool
  waitingAnswer : Bool
  answerProcessed : Bool
  deriving DecidableEq, Repr

/-- The call `a.compare_exchange_strong (expected, desired)` on a `std::atomic<bool>`
holding `current`: whether the exchange took place, and the value held afterwards. -/
def compare_exchange_strong (current expected desired : Bool) : Bool × Bool :=
  if current = expected then (true, desired) else (false, current)

/-- The bytes `sdpStr.c_str ()` read as a NUL-terminated buffer (length `-1`). -/
def c_str (sdpStr : String) : String :=
  String.mk (sdpStr.data.takeWhile (fun c => c ≠ Char.ofNat 0))

/-- The helper `str_to_sdp`. -/
def str_to_sdp (gst : GstSdp) (sdpStr : String) : Except KurentoException GstSDPMessage :=
  if gst.gst_sdp_message_new = false then
    Except.error ⟨ErrorCode.SDP_CREATE_ERROR, "Error creating SDP message"⟩
  else
    match gst.gst_sdp_message_parse_buffer (c_str sdpStr) with
    | none => Except.error ⟨ErrorCode.SDP_PARSE_ERROR, "Error parsing SDP"⟩
    | some sdp =>
      if sdp.version = none then
        Except.error ⟨ErrorCode.SDP_PARSE_ERROR, "Invalid SDP"⟩
      else
        Except.ok sdp

/-- The helper `sdp_to_str`. -/
def sdp_to_str (sdp : GstSDPMessage) : String :=
  "".append sdp.as_text

/-- What a member function of the endpoint leaves behind: the value returned or the
exception thrown, the endpoint and its pipeline after the call, and the effects. -/
structure Outcome where
  result : Except KurentoException String
  endpoint : SdpEndpointImpl
  pipe : MediaPipelineImpl
  events : List Event

/-- The statement `offerInProcess.compare_exchange_strong (expected, true)` with
`expected = false`, by which `generateOffer` and `processOffer` take the negotiation
gate: whether the exchange took place, and the endpoint right after the statement. -/
def SdpEndpointImpl.offerInProcess_exchange (self : SdpEndpointImpl) : Bool × SdpEndpointImpl :=
  let cas := compare_exchange_strong self.offerInProcess false true
  (cas.1, { self with offerInProcess := cas.2 })

/-- The block `if (dosocketreuse) { ... pipe->setSockets (...) }` shared by
`generateOffer` and `processOffer`: the pipeline afterwards and the effects. -/
def socket_reuse_block (eng : Engine) (self : SdpEndpointImpl) (pipe : MediaPipelineImpl) :
    MediaPipelineImpl × List Event :=
  if self.dosocketreuse then
    let rtp_socket_reuse_audio := eng.get_set_rtp_socket_audio NULL
    let rtcp_socket_reuse_audio := eng.get_set_rtcp_socket_audio NULL
    let rtp_socket_reuse_video := eng.get_set_rtp_socket_video NULL
    let rtcp_socket_reuse_video := eng.get_set_rtcp_socket_video NULL
    let out := pipe.setSockets rtp_socket_reuse_audio rtcp_socket_reuse_audio
      rtp_socket_reuse_video rtcp_socket_reuse_video
    (out.1,
      [Event.emit "get-set-rtp-socket-audio" self.sessId,
        Event.emit "get-set-rtcp-socket-audio" self.sessId,
        Event.emit "get-set-rtp-socket-video" self.sessId,
        Event.emit "get-set-rtcp-socket-video" self.sessId] ++ out.2)
  else (pipe, [])

/-- `SdpEndpointImpl::generateOffer`. -/
def SdpEndpointImpl.generateOffer (eng : Engine) (self : SdpEndpointImpl)
    (pipe : MediaPipelineImpl) : Outcome :=
  let gate := self.offerInProcess_exchange
  let self1 := gate.2
  if gate.1 = false then
    { result := Except.error ⟨ErrorCode.SDP_END_POINT_ALREADY_NEGOTIATED,
        "Endpoint already negotiated"⟩,
      endpoint := self1, pipe := pipe, events := [] }
  else
    match eng.generate_offer with
    | none =>
      { result := Except.error ⟨ErrorCode.SDP_END_POINT_GENERATE_OFFER_ERROR,
          "Error generating offer"⟩,
        endpoint := { self1 with offerInProcess := false }, pipe := pipe,
        events := [Event.emit "generate-offer" self.sessId] }
    | some offer =>
      let offerStr := sdp_to_str offer
      let self2 := { self1 with waitingAnswer := true }
      let reuse := socket_reuse_block eng self2 pipe
      { result := Except.ok offerStr, endpoint := self2, pipe := reuse.1,
        events := [Event.emit "generate-offer" self.sessId] ++ reuse.2 }

/-- `SdpEndpointImpl::processOffer`. -/
def SdpEndpointImpl.processOffer (gst : GstSdp) (eng : Engine) (self : SdpEndpointImpl)
    (pipe : MediaPipelineImpl) (offer : String) : Outcome :=
  if offer.isEmpty then
    { result := Except.error ⟨ErrorCode.SDP_PARSE_ERROR, "Empty offer not valid"⟩,
      endpoint := self, pipe := pipe, events := [] }
  else
    match str_to_sdp gst offer with
    | Except.error e => { result := Except.error e, endpoint := self, pipe := pipe, events := [] }
    | Except.ok offerSdp =>
      let gate := self.offerInProcess_exchange
      let self1 := gate.2
      if gate.1 = false then
        { result := Except.error ⟨ErrorCode.SDP_END_POINT_ALREADY_NEGOTIATED,
            "Endpoint already negotiated"⟩,
          endpoint := self1, pipe := pipe, events := [] }
      else
        match eng.process_offer offerSdp with
        | none =>
          { result := Except.error ⟨ErrorCode.SDP_END_POINT_PROCESS_OFFER_ERROR,
              "Error processing offer"⟩,
            endpoint := { self1 with offerInProcess := false }, pipe := pipe,
            events := [Event.emit "process-offer" self.sessId] }
        | some result =>
          let offerSdpStr := sdp_to_str result
          let reuse := socket_reuse_block eng self1 pipe
          { result := Except.ok offerSdpStr, endpoint := self1, pipe := reuse.1,
            events := [Event.emit "process-offer" self.sessId, Event.MediaSessionStarted]
              ++ reuse.2 }

/-- `SdpEndpointImpl::getLocalSessionDescriptor`: the value returned or the exception
thrown, and the effects. -/
def SdpEndpointImpl.getLocalSessionDescriptor (eng : Engine) (self : SdpEndpointImpl) :
    Except KurentoException String × List Event :=
  match eng.get_local_sdp with
  | none =>
    (Except.error ⟨ErrorCode.SDP_END_POINT_NO_LOCAL_SDP_ERROR, "No local SDP"⟩,
      [Event.emit "get-local-sdp" self.sessId])
  | some localSdp => (Except.ok (sdp_to_str localSdp), [Event.emit "get-local-sdp" self.sessId])

/-- `SdpEndpointImpl::getRemoteSessionDescriptor`. -/
def SdpEndpointImpl.getRemoteSessionDescriptor (eng : Engine) (self : SdpEndpointImpl) :
    Except KurentoException String × List Event :=
  match eng.get_remote_sdp with
  | none =>
    (Except.error ⟨ErrorCode.SDP_END_POINT_NO_REMOTE_SDP_ERROR, "No remote SDP"⟩,
      [Event.emit "get-remote-sdp" self.sessId])
  | some remoteSdp =>
    (Except.ok (sdp_to_str remoteSdp), [Event.emit "get-remote-sdp" self.sessId])

/-- `SdpEndpointImpl::processAnswer`. -/
def SdpEndpointImpl.processAnswer (gst : GstSdp) (eng : Engine) (self : SdpEndpointImpl)
    (pipe : MediaPipelineImpl) (answer : String) : Outcome :=
  if answer.isEmpty then
    { result := Except.error ⟨ErrorCode.SDP_PARSE_ERROR, "Empty answer not valid"⟩,
      endpoint := self, pipe := pipe, events := [] }
  else
    let cas := compare_exchange_strong self.waitingAnswer true true
    let self1 := { self with waitingAnswer := cas.2 }
    if cas.1 = false then
      { result := Except.error ⟨ErrorCode.SDP_END_POINT_NOT_OFFER_GENERATED,
          "Offer not generated. It is not possible to process an answer."⟩,
        endpoint := self1, pipe := pipe, events := [] }
    else
      match str_to_sdp gst answer with
      | Except.error e =>
        { result := Except.error e, endpoint := self1, pipe := pipe, events := [] }
      | Except.ok answerSdp =>
        let cas2 := compare_exchange_strong self1.answerProcessed false true
        let self2 := { self1 with answerProcessed := cas2.2 }
        if cas2.1 = false then
          { result := Except.error ⟨ErrorCode.SDP_END_POINT_ANSWER_ALREADY_PROCCESED,
              "Sdp Answer already processed"⟩,
            endpoint := self2, pipe := pipe, events := [] }
        else if eng.process_answer answerSdp = false then
          { result := Except.error ⟨ErrorCode.SDP_END_POINT_PROCESS_ANSWER_ERROR,
              "Error processing answer"⟩,
            endpoint := self2, pipe := pipe,
            events := [Event.emit "process-answer" self.sessId] }
        else
          let out := self2.getLocalSessionDescriptor eng
          { result := out.1, endpoint := self2, pipe := pipe,
            events := [Event.emit "process-answer" self.sessId, Event.MediaSessionStarted]
              ++ out.2 }

/-! ### Calls and sequences of calls -/

/-- A negotiation call on one endpoint. -/
inductive Call where
  | generateOffer
  | processOffer (offer : String)
  | processAnswer (answer : String)
  deriving DecidableEq, Repr

/-- An endpoint together with the pipeline it is attached to. -/
structure World where
  endpoint : SdpEndpointImpl
  pipe : MediaPipelineImpl

/-- One call, the engine answering as `eng` during it. -/
def World.call (gst : GstSdp) (w : World) (c : Call) (eng : Engine) : Outcome :=
  match c with
  | Call.generateOffer => w.endpoint.generateOffer eng w.pipe
  | Call.processOffer offer => w.endpoint.processOffer gst eng w.pipe offer
  | Call.processAnswer answer => w.endpoint.processAnswer gst eng w.pipe answer

/-- The endpoint and pipeline left by an outcome. -/
def Outcome.world (o : Outcome) : World :=
  { endpoint := o.endpoint, pipe := o.pipe }

/-- The world after a sequence of calls, each with the engine of its moment. -/
def World.calls (gst : GstSdp) (w : World) : List (Call × Engine) → World
  | [] => w
  | (c, eng) :: cs => World.calls gst (w.call gst c eng).world cs

/-- The results of a sequence of calls, in order. -/
def World.results (gst : GstSdp) (w : World) :
    List (Call × Engine) → List (Except KurentoException String)
  | [] => []
  | (c, eng) :: cs => (w.call gst c eng).result :: World.results gst (w.call gst c eng).world cs

/-- Whether a call returned a body. -/
def succeeded (r : Except KurentoException String) : Bool :=
  match r with
  | Except.ok _ => true
  | Except.error _ => false

/-- The guards as the constructor `SdpEndpointImpl::SdpEndpointImpl` leaves them
(`offerInProcess = false; waitingAnswer = false; answerProcessed = false;`). -/
def SdpEndpointImpl.initial (sessId : String) (isrtpendpoint dosocketreuse : Bool) :
    SdpEndpointImpl :=
  { sessId := sessId, isrtpendpoint := isrtpendpoint, dosocketreuse := dosocketreuse,
    offerInProcess := false, waitingAnswer := false, answerProcessed := false }

/-- Whether a call is one of the two that enter negotiation. -/
def Call.isOfferCall : Call → Bool
  | Call.generateOffer => true
  | Call.processOffer _ => true
  | Call.processAnswer _ => false

/-- The number of calls of a sequence that returned a body. -/
def World.successes (gst : GstSdp) (w : World) (cs : List (Call × Engine)) : Nat :=
  ((w.results gst cs).filter succeeded).length

/-- Whether no `generateOffer` call of a sequence returned a body. -/
def World.noGenerateOfferSucceeded (gst : GstSdp) (w : World) : List (Call × Engine) → Bool
  | [] => true
  | (c, eng) :: cs =>
    (!(decide (c = Call.generateOffer) && succeeded (w.call gst c eng).result))
      && World.noGenerateOfferSucceeded gst (w.call gst c eng).world cs

/-! ### The constructor -/

/-- Modelled from the spec: the `config` of `SdpEndpoint (pipeline, kind, config)`, read
through `MediaObjectImpl::getConfigValue`, which is declared outside the sources at hand.
Each field gives what the configuration holds for `SdpEndpoint` under a key, read at the
type asked for, `none` when it holds nothing there. -/
structure Config where
  guint : String → Option Nat
  string : String → Option String
  codecs : String → Option (List String)

/-- The key `PARAM_NUM_AUDIO_MEDIAS`. -/
def PARAM_NUM_AUDIO_MEDIAS : String := "numAudioMedias"

/-- The key `PARAM_NUM_VIDEO_MEDIAS`. -/
def PARAM_NUM_VIDEO_MEDIAS : String := "numVideoMedias"

/-- The key `PARAM_AUDIO_CODECS`. -/
def PARAM_AUDIO_CODECS : String := "audioCodecs"

/-- The key `PARAM_VIDEO_CODECS`. -/
def PARAM_VIDEO_CODECS : String := "videoCodecs"

/-- The key `PARAM_LOCAL_ADDRESS`. -/
def PARAM_LOCAL_ADDRESS : String := "localAddress"

/-- The key `PARAM_SOCKET_REUSE`. -/
def PARAM_SOCKET_REUSE : String := "socketreuse"

/-- Modelled from the spec: the call `getConfigValue <guint, SdpEndpoint> (key,
defaultValue)`, whose declaration is outside the sources at hand: the number the
configuration holds under the key, `defaultValue` when it holds none. -/
def getConfigValue_guint (config : Config) (key : String) (defaultValue : Nat) : Nat :=
  match config.guint key with
  | some v => v
  | none => defaultValue

/-- Modelled from the spec: the call `getConfigValue <std::string, SdpEndpoint> (key,
defaultValue)`, whose declaration is outside the sources at hand: the text the
configuration holds under the key, `defaultValue` when it holds none. -/
def getConfigValue_string (config : Config) (key : String) (defaultValue : String) : String :=
  match config.string key with
  | some v => v
  | none => defaultValue

/-- The block `try { list = getConfigValue <...> (key); for (conf : list) append_codec_to_array
(...) } catch (ptree_bad_path) { }` of the constructor: the codec names appended to the
array, none when the key is missing. -/
def codec_array (config : Config) (key : String) : List String :=
  match config.codecs key with
  | some names => names
  | none => []

/-- The properties that the constructor sets on `element` with `g_object_set`; `addr` is
`none` when the constructor does not set it. -/
structure ElementProperties where
  num_audio_medias : Nat
  audio_codecs : List String
  num_video_medias : Nat
  video_codecs : List String
  use_ipv6 : Bool
  addr : Option String
  reuse_socket : Bool
  deriving DecidableEq, Repr

/-- The constructor `SdpEndpointImpl::SdpEndpointImpl (config, parent, factoryName,
useIpv6)`: the members it leaves (`sessId` is assigned later, by `postConstructor`) and
the properties it sets on the element. -/
def SdpEndpointImpl.constructor (config : Config) (factoryName : String) (useIpv6 : Bool) :
    SdpEndpointImpl × ElementProperties :=
  let isrtpendpoint : Bool := if factoryName = "rtpendpoint" then true else false
  let audio_medias := getConfigValue_guint config PARAM_NUM_AUDIO_MEDIAS 0
  let video_medias := getConfigValue_guint config PARAM_NUM_VIDEO_MEDIAS 0
  let local_address := getConfigValue_string config PARAM_LOCAL_ADDRESS ""
  let socket_reuse := getConfigValue_guint config PARAM_SOCKET_REUSE 1
  let dosocketreuse : Bool :=
    if socket_reuse = 1 ∧ isrtpendpoint = true then true else false
  let audio_codecs := codec_array config PARAM_AUDIO_CODECS
  let video_codecs := codec_array config PARAM_VIDEO_CODECS
  let addr : Option String :=
    if local_address.isEmpty = false ∧ isrtpendpoint = true then some local_address else none
  let bdosocketreuse := dosocketreuse
  ({ sessId := "", isrtpendpoint := isrtpendpoint, dosocketreuse := dosocketreuse,
     offerInProcess := false, waitingAnswer := false, answerProcessed := false },
   { num_audio_medias := audio_medias, audio_codecs := audio_codecs,
     num_video_medias := video_medias, video_codecs := video_codecs,
     use_ipv6 := useIpv6, addr := addr, reuse_socket := bdosocketreuse })

/-! ## Concrete objects used to evaluate the functions -/

/-- A session description with a version line. -/
def sdpV0 : GstSDPMessage := { version := some "0", as_text := "v=0\r\n" }

/-- A session description without a version line. -/
def sdpNoVersion : GstSDPMessage := { version := none, as_text := "s=-\r\n" }

/-- An SDP library that parses the text `v=0` into `sdpV0`, the text `s=-` into
`sdpNoVersion`, and fails to parse any other text. -/
def gstSample : GstSdp :=
  { gst_sdp_message_new := true,
    gst_sdp_message_parse_buffer := fun s =>
      if s = "v=0" then some sdpV0 else if s = "s=-" then some sdpNoVersion else none }

/-- An engine that answers every request and binds sockets `11`, `12`, `13`, `14`. -/
def engineOk : Engine :=
  { generate_offer := some sdpV0, process_offer := fun _ => some sdpV0,
    process_answer := fun _ => true, get_local_sdp := some sdpV0,
    get_remote_sdp := some sdpV0,
    get_set_rtp_socket_audio := fun _ => 11, get_set_rtcp_socket_audio := fun _ => 12,
    get_set_rtp_socket_video := fun _ => 13, get_set_rtcp_socket_video := fun _ => 14 }

/-- An engine that refuses every request. -/
def engineFail : Engine :=
  { generate_offer := none, process_offer := fun _ => none,
    process_answer := fun _ => false, get_local_sdp := none, get_remote_sdp := none,
    get_set_rtp_socket_audio := fun _ => NULL, get_set_rtcp_socket_audio := fun _ => NULL,
    get_set_rtp_socket_video := fun _ => NULL, get_set_rtcp_socket_video := fun _ => NULL }

/-- Objects `1` and `3` are `KmsElement`s with statistics off, every other object is a
plain `GstElement`. -/
def heapSample : GstElementPtr → GstElement :=
  fun p => { KMS_IS_ELEMENT := decide (p = 1 ∨ p = 3), media_stats := false }

/-- A pipeline whose four slots hold the given handles. -/
def poolOf (s1 s2 s3 s4 : GSocket) : MediaPipelineImpl :=
  { MediaPipelineImpl.new heapSample with
    rtp_socket_reuse_audio := s1, rtcp_socket_reuse_audio := s2,
    rtp_socket_reuse_video := s3, rtcp_socket_reuse_video := s4 }

/-- A configuration that holds nothing for `SdpEndpoint`. -/
def configEmpty : Config :=
  { guint := fun _ => none, string := fun _ => none, codecs := fun _ => none }

/-- A configuration that holds the number `v` under `socketreuse` and nothing else. -/
def configSocketReuse (v : Nat) : Config :=
  { guint := fun key => if key = PARAM_SOCKET_REUSE then some v else none,
    string := fun _ => none, codecs := fun _ => none }

/-- A freshly constructed endpoint without socket reuse, attached to a fresh pipeline. -/
def worldSample : World :=
  { endpoint := SdpEndpointImpl.initial "sess0" false false,
    pipe := MediaPipelineImpl.new heapSample }


/-! ## Negotiation: general facts about the three functions -/

/-- With the gate taken, `generateOffer` throws "already negotiated" and changes nothing. -/
theorem generateOffer_of_gate (eng : Engine) (self : SdpEndpointImpl) (pipe : MediaPipelineImpl)
    (h : self.offerInProcess = true) :
    (self.generateOffer eng pipe).result
        = Except.error ⟨ErrorCode.SDP_END_POINT_ALREADY_NEGOTIATED, "Endpoint already negotiated"⟩
      ∧ (self.generateOffer eng pipe).endpoint = self
      ∧ (self.generateOffer eng pipe).pipe = pipe
      ∧ (self.generateOffer eng pipe).events = [] := by
  cases self with
  | mk s r d o w a =>
    simp only at h
    subst h
    simp [SdpEndpointImpl.generateOffer, SdpEndpointImpl.offerInProcess_exchange, compare_exchange_strong]

/-- With the gate free, the engine decides what `generateOffer` does. -/
theorem generateOffer_of_free (eng : Engine) (self : SdpEndpointImpl) (pipe : MediaPipelineImpl)
    (h : self.offerInProcess = false) :
    (self.generateOffer eng pipe).result
        = (match eng.generate_offer with
          | some offer => Except.ok (sdp_to_str offer)
          | none => Except.error ⟨ErrorCode.SDP_END_POINT_GENERATE_OFFER_ERROR,
              "Error generating offer"⟩)
      ∧ (self.generateOffer eng pipe).endpoint
        = (match eng.generate_offer with
          | some _ => { self with offerInProcess := true, waitingAnswer := true }
          | none => self) := by
  cases self with
  | mk s r d o w a =>
    simp only at h
    subst h
    cases hg : eng.generate_offer <;>
      simp [SdpEndpointImpl.generateOffer, SdpEndpointImpl.offerInProcess_exchange, compare_exchange_strong, hg]

/-- With the gate taken, `processOffer` of a non-empty offer that `str_to_sdp` accepts
throws "already negotiated" and changes nothing. -/
theorem processOffer_of_gate (gst : GstSdp) (eng : Engine) (self : SdpEndpointImpl)
    (pipe : MediaPipelineImpl) (offer : String) (offerSdp : GstSDPMessage)
    (h : self.offerInProcess = true) (hne : offer.isEmpty = false)
    (hwf : str_to_sdp gst offer = Except.ok offerSdp) :
    (self.processOffer gst eng pipe offer).result
        = Except.error ⟨ErrorCode.SDP_END_POINT_ALREADY_NEGOTIATED, "Endpoint already negotiated"⟩
      ∧ (self.processOffer gst eng pipe offer).endpoint = self
      ∧ (self.processOffer gst eng pipe offer).pipe = pipe
      ∧ (self.processOffer gst eng pipe offer).events = [] := by
  cases self with
  | mk s r d o w a =>
    simp only at h
    subst h
    simp [SdpEndpointImpl.processOffer, SdpEndpointImpl.offerInProcess_exchange, compare_exchange_strong, hne, hwf]

/-- With the gate free, the engine decides what `processOffer` of a non-empty offer that
`str_to_sdp` accepts does. -/
theorem processOffer_of_free (gst : GstSdp) (eng : Engine) (self : SdpEndpointImpl)
    (pipe : MediaPipelineImpl) (offer : String) (offerSdp : GstSDPMessage)
    (h : self.offerInProcess = false) (hne : offer.isEmpty = false)
    (hwf : str_to_sdp gst offer = Except.ok offerSdp) :
    (self.processOffer gst eng pipe offer).result
        = (match eng.process_offer offerSdp with
          | some answer => Except.ok (sdp_to_str answer)
          | none => Except.error ⟨ErrorCode.SDP_END_POINT_PROCESS_OFFER_ERROR,
              "Error processing offer"⟩)
      ∧ (self.processOffer gst eng pipe offer).endpoint
        = (match eng.process_offer offerSdp with
          | some _ => { self with offerInProcess := true }
          | none => self) := by
  cases self with
  | mk s r d o w a =>
    simp only at h
    subst h
    cases hg : eng.process_offer offerSdp <;>
      simp [SdpEndpointImpl.processOffer, SdpEndpointImpl.offerInProcess_exchange, compare_exchange_strong, hne, hwf, hg]


/-- What `generateOffer` does to the guards, whatever the engine answers. -/
theorem generateOffer_guards (eng : Engine) (self : SdpEndpointImpl) (pipe : MediaPipelineImpl) :
    (self.offerInProcess = true → (self.generateOffer eng pipe).endpoint.offerInProcess = true)
      ∧ (self.waitingAnswer = true → (self.generateOffer eng pipe).endpoint.waitingAnswer = true)
      ∧ (self.generateOffer eng pipe).endpoint.answerProcessed = self.answerProcessed
      ∧ (succeeded (self.generateOffer eng pipe).result = true →
          (self.generateOffer eng pipe).endpoint.offerInProcess = true)
      ∧ (succeeded (self.generateOffer eng pipe).result = false →
          (self.generateOffer eng pipe).endpoint.waitingAnswer = self.waitingAnswer) := by
  cases self with
  | mk s r d o w a =>
    cases o <;> cases hg : eng.generate_offer <;>
      simp [SdpEndpointImpl.generateOffer, SdpEndpointImpl.offerInProcess_exchange, compare_exchange_strong, hg, succeeded]

/-- What `processOffer` does to the guards, whatever the input and the engine's answer. -/
theorem processOffer_guards (gst : GstSdp) (eng : Engine) (self : SdpEndpointImpl)
    (pipe : MediaPipelineImpl) (offer : String) :
    (self.offerInProcess = true →
        (self.processOffer gst eng pipe offer).endpoint.offerInProcess = true)
      ∧ (self.processOffer gst eng pipe offer).endpoint.waitingAnswer = self.waitingAnswer
      ∧ (self.processOffer gst eng pipe offer).endpoint.answerProcessed = self.answerProcessed
      ∧ (succeeded (self.processOffer gst eng pipe offer).result = true →
          (self.processOffer gst eng pipe offer).endpoint.offerInProcess = true) := by
  cases self with
  | mk s r d o w a =>
    unfold SdpEndpointImpl.processOffer
    cases he : offer.isEmpty
    · cases hs : str_to_sdp gst offer with
      | error e => simp [succeeded]
      | ok offerSdp =>
        cases o <;> cases hg : eng.process_offer offerSdp <;>
          simp [SdpEndpointImpl.offerInProcess_exchange, compare_exchange_strong, hg, succeeded]
    · simp [succeeded]

/-- What `processAnswer` does to the guards, whatever the input and the engine's answer. -/
theorem processAnswer_guards (gst : GstSdp) (eng : Engine) (self : SdpEndpointImpl)
    (pipe : MediaPipelineImpl) (answer : String) :
    (self.processAnswer gst eng pipe answer).endpoint.offerInProcess = self.offerInProcess
      ∧ (self.processAnswer gst eng pipe answer).endpoint.waitingAnswer = self.waitingAnswer
      ∧ (self.answerProcessed = true →
          (self.processAnswer gst eng pipe answer).endpoint.answerProcessed = true) := by
  cases self with
  | mk s r d o w a =>
    unfold SdpEndpointImpl.processAnswer
    cases he : answer.isEmpty
    · cases w
      · simp [SdpEndpointImpl.offerInProcess_exchange, compare_exchange_strong]
      · cases hs : str_to_sdp gst answer with
        | error e => simp [SdpEndpointImpl.offerInProcess_exchange, compare_exchange_strong]
        | ok answerSdp =>
          cases a <;> cases hp : eng.process_answer answerSdp <;>
            simp [SdpEndpointImpl.offerInProcess_exchange, compare_exchange_strong, hp]
    · simp

/-- One call never clears a guard that was set before it. -/
theorem call_guards_mono (gst : GstSdp) (w : World) (c : Call) (eng : Engine) :
    (w.endpoint.offerInProcess = true → (w.call gst c eng).endpoint.offerInProcess = true)
      ∧ (w.endpoint.waitingAnswer = true → (w.call gst c eng).endpoint.waitingAnswer = true)
      ∧ (w.endpoint.answerProcessed = true →
          (w.call gst c eng).endpoint.answerProcessed = true) := by
  cases c with
  | generateOffer =>
    have h := generateOffer_guards eng w.endpoint w.pipe
    exact ⟨h.1, h.2.1, fun ha => by simpa [World.call, ha] using h.2.2.1⟩
  | processOffer offer =>
    have h := processOffer_guards gst eng w.endpoint w.pipe offer
    exact ⟨h.1, fun hw => by simpa [World.call, hw] using h.2.1,
      fun ha => by simpa [World.call, ha] using h.2.2.1⟩
  | processAnswer answer =>
    have h := processAnswer_guards gst eng w.endpoint w.pipe answer
    exact ⟨fun ho => by simpa [World.call, ho] using h.1,
      fun hw => by simpa [World.call, hw] using h.2.1, h.2.2⟩

/-- A sequence of calls never clears a guard that was set before it. -/
theorem calls_guards_mono (gst : GstSdp) (cs : List (Call × Engine)) :
    ∀ w : World,
      (w.endpoint.offerInProcess = true → (w.calls gst cs).endpoint.offerInProcess = true)
        ∧ (w.endpoint.waitingAnswer = true → (w.calls gst cs).endpoint.waitingAnswer = true)
        ∧ (w.endpoint.answerProcessed = true →
            (w.calls gst cs).endpoint.answerProcessed = true) := by
  induction cs with
  | nil => intro w; simp [World.calls]
  | cons x cs ih =>
    intro w
    obtain ⟨c, eng⟩ := x
    have h1 := call_guards_mono gst w c eng
    have h2 := ih (w.call gst c eng).world
    simp only [World.calls]
    exact ⟨fun h => h2.1 (h1.1 h), fun h => h2.2.1 (h1.2.1 h), fun h => h2.2.2 (h1.2.2 h)⟩

/-- With the gate taken, no call that enters negotiation returns a body, and the
endpoint is left as it was. -/
theorem offerCall_of_gate (gst : GstSdp) (w : World) (c : Call) (eng : Engine)
    (hc : c.isOfferCall = true) (h : w.endpoint.offerInProcess = true) :
    succeeded (w.call gst c eng).result = false := by
  obtain ⟨⟨s, r, d, o, wa, a⟩, pipe⟩ := w
  simp only at h
  subst h
  cases c with
  | generateOffer =>
    simp [World.call, SdpEndpointImpl.generateOffer, SdpEndpointImpl.offerInProcess_exchange, compare_exchange_strong, succeeded]
  | processOffer offer =>
    simp only [World.call, SdpEndpointImpl.processOffer]
    cases he : offer.isEmpty
    · cases hs : str_to_sdp gst offer with
      | error e => simp [succeeded]
      | ok offerSdp => simp [SdpEndpointImpl.offerInProcess_exchange, compare_exchange_strong, succeeded]
    · simp [succeeded]
  | processAnswer answer => simp [Call.isOfferCall] at hc

/-- A call that enters negotiation and returns a body leaves the gate taken. -/
theorem offerCall_succeeded_gate (gst : GstSdp) (w : World) (c : Call) (eng : Engine)
    (hc : c.isOfferCall = true) (hok : succeeded (w.call gst c eng).result = true) :
    (w.call gst c eng).world.endpoint.offerInProcess = true := by
  cases c with
  | generateOffer => exact (generateOffer_guards eng w.endpoint w.pipe).2.2.2.1 hok
  | processOffer offer => exact (processOffer_guards gst eng w.endpoint w.pipe offer).2.2.2 hok
  | processAnswer answer => simp [Call.isOfferCall] at hc

/-- With the gate taken, no call of a sequence of negotiation-entering calls returns. -/
theorem successes_of_gate (gst : GstSdp) (cs : List (Call × Engine)) :
    ∀ w : World, (∀ x ∈ cs, x.1.isOfferCall = true) → w.endpoint.offerInProcess = true →
      w.successes gst cs = 0 := by
  induction cs with
  | nil => intro w _ _; rfl
  | cons x cs ih =>
    intro w hall h
    obtain ⟨c, eng⟩ := x
    have hc : c.isOfferCall = true := hall (c, eng) (List.mem_cons_self _ _)
    have hf := offerCall_of_gate gst w c eng hc h
    have hnext : (w.call gst c eng).world.endpoint.offerInProcess = true :=
      (call_guards_mono gst w c eng).1 h
    have hrest := ih (w.call gst c eng).world
      (fun y hy => hall y (List.mem_cons_of_mem _ hy)) hnext
    simp only [World.successes] at hrest ⊢
    simp [World.results, hf, hrest]

/-- At most one call of a sequence of negotiation-entering calls returns a body. -/
theorem successes_le_one (gst : GstSdp) (cs : List (Call × Engine)) :
    ∀ w : World, (∀ x ∈ cs, x.1.isOfferCall = true) → w.successes gst cs ≤ 1 := by
  induction cs with
  | nil => intro w _; simp [World.successes, World.results]
  | cons x cs ih =>
    intro w hall
    obtain ⟨c, eng⟩ := x
    have hc : c.isOfferCall = true := hall (c, eng) (List.mem_cons_self _ _)
    have hall2 : ∀ y ∈ cs, y.1.isOfferCall = true :=
      fun y hy => hall y (List.mem_cons_of_mem _ hy)
    cases hs : succeeded (w.call gst c eng).result with
    | false =>
      have hrest := ih (w.call gst c eng).world hall2
      simp only [World.successes] at hrest ⊢
      simpa [World.results, hs] using hrest
    | true =>
      have hgate := offerCall_succeeded_gate gst w c eng hc hs
      have hrest := successes_of_gate gst cs (w.call gst c eng).world hall2 hgate
      simp only [World.successes] at hrest ⊢
      simp [World.results, hs, hrest]

/-- Without a `generateOffer` that returned, `waitingAnswer` stays false. -/
theorem waitingAnswer_of_noGenerateOfferSucceeded (gst : GstSdp) (cs : List (Call × Engine)) :
    ∀ w : World, w.endpoint.waitingAnswer = false →
      w.noGenerateOfferSucceeded gst cs = true →
      (w.calls gst cs).endpoint.waitingAnswer = false := by
  induction cs with
  | nil => intro w h _; simpa [World.calls] using h
  | cons x cs ih =>
    intro w h hno
    obtain ⟨c, eng⟩ := x
    simp only [World.noGenerateOfferSucceeded, Bool.and_eq_true, Bool.not_eq_true',
      Bool.and_eq_false_iff, decide_eq_false_iff_not] at hno
    have hstep : (w.call gst c eng).world.endpoint.waitingAnswer = false := by
      cases c with
      | generateOffer =>
        have hf : succeeded (w.call gst Call.generateOffer eng).result = false := by
          rcases hno.1 with h1 | h1
          · exact absurd rfl h1
          · exact h1
        have := (generateOffer_guards eng w.endpoint w.pipe).2.2.2.2 hf
        simpa [World.call, Outcome.world, h] using this
      | processOffer offer =>
        have := (processOffer_guards gst eng w.endpoint w.pipe offer).2.1
        simpa [World.call, Outcome.world, h] using this
      | processAnswer answer =>
        have := (processAnswer_guards gst eng w.endpoint w.pipe answer).2.1
        simpa [World.call, Outcome.world, h] using this
    simpa [World.calls] using ih (w.call gst c eng).world hstep hno.2

/-- Without `waitingAnswer`, `processAnswer` of a non-empty body throws "offer not
generated" and changes nothing. -/
theorem processAnswer_of_not_waiting (gst : GstSdp) (eng : Engine) (self : SdpEndpointImpl)
    (pipe : MediaPipelineImpl) (answer : String)
    (h : self.waitingAnswer = false) (hne : answer.isEmpty = false) :
    (self.processAnswer gst eng pipe answer).result
        = Except.error ⟨ErrorCode.SDP_END_POINT_NOT_OFFER_GENERATED,
            "Offer not generated. It is not possible to process an answer."⟩
      ∧ (self.processAnswer gst eng pipe answer).endpoint = self
      ∧ (self.processAnswer gst eng pipe answer).pipe = pipe
      ∧ (self.processAnswer gst eng pipe answer).events = [] := by
  cases self with
  | mk s r d o w a =>
    simp only at h
    subst h
    simp [SdpEndpointImpl.processAnswer, SdpEndpointImpl.offerInProcess_exchange, compare_exchange_strong, hne]

/-- The closes that the spec's rule issues for one slot. -/
theorem mem_spec_slot_replacement (old new h : GSocket) :
    Event.rtp_socket_close h ∈ spec_slot_replacement old new ↔
      old = h ∧ old ≠ NULL ∧ new ≠ old := by
  by_cases h1 : old = NULL <;> by_cases h2 : new = old <;>
    simp [spec_slot_replacement, h1, h2]
  exact eq_comm

/-! ## Latency statistics: the walk over the bin -/

/-- `set_media_stats` never changes what kind of object a pointer leads to. -/
theorem set_media_stats_kind (heap : GstElementPtr → GstElement) (element : GstElementPtr)
    (value : Bool) (p : GstElementPtr) :
    (set_media_stats heap element value p).KMS_IS_ELEMENT = (heap p).KMS_IS_ELEMENT := by
  unfold set_media_stats
  split <;> rfl

/-- With more fuel than children left, the loop of `setLatencyStats` ends; it has then
written the new value to every `KmsElement` left to visit, and to nothing else. -/
theorem setLatencyStats_loop_spec (value : Bool) (all : List GstElementPtr) :
    ∀ (rest : List GstElementPtr) (fuel : Nat) (heap : GstElementPtr → GstElement)
      (events : List Event), rest.length < fuel →
      ∃ heap1 events1,
        setLatencyStats_loop value fuel { all := all, rest := rest } heap events
            = some (heap1, events1)
          ∧ (∀ p, (heap1 p).KMS_IS_ELEMENT = (heap p).KMS_IS_ELEMENT)
          ∧ (∀ p, (heap p).KMS_IS_ELEMENT = false → heap1 p = heap p)
          ∧ (∀ p, p ∈ rest → (heap p).KMS_IS_ELEMENT = true → (heap1 p).media_stats = value)
          ∧ (∀ p, (heap1 p).media_stats = value ∨ heap1 p = heap p)
          ∧ (∀ p v, Event.media_stats p v ∈ events1 →
              Event.media_stats p v ∈ events ∨ (heap p).KMS_IS_ELEMENT = true) := by
  intro rest
  induction rest with
  | nil =>
    intro fuel heap events hf
    cases fuel with
    | zero => simp at hf
    | succ f =>
      refine ⟨heap, events, ?_, fun _ => rfl, fun _ _ => rfl, ?_, fun _ => Or.inr rfl,
        fun _ _ h => Or.inl h⟩
      · simp [setLatencyStats_loop, gst_iterator_next]
      · intro p hp; simp at hp
  | cons e r ih =>
    intro fuel heap events hf
    cases fuel with
    | zero => simp at hf
    | succ f =>
      have hf2 : r.length < f := by simpa using hf
      cases hk : (heap e).KMS_IS_ELEMENT with
      | false =>
        obtain ⟨heap1, events1, hrun, hkind, hplain, hset, hor, hev⟩ := ih f heap events hf2
        refine ⟨heap1, events1, ?_, hkind, hplain, ?_, hor, hev⟩
        · simp [setLatencyStats_loop, gst_iterator_next, hk, hrun]
        · intro p hp hpk
          rcases List.mem_cons.mp hp with h | h
          · subst h; rw [hk] at hpk; cases hpk
          · exact hset p h hpk
      | true =>
        obtain ⟨heap1, events1, hrun, hkind, hplain, hset, hor, hev⟩ :=
          ih f (set_media_stats heap e value)
            (events ++ [Event.media_stats e value]) hf2
        refine ⟨heap1, events1, ?_, ?_, ?_, ?_, ?_, ?_⟩
        · simp [setLatencyStats_loop, gst_iterator_next, hk, hrun]
        · intro p
          rw [hkind p, set_media_stats_kind]
        · intro p hp
          have hne : p ≠ e := fun h => by rw [h, hk] at hp; cases hp
          rw [hplain p (by rw [set_media_stats_kind]; exact hp)]
          simp [set_media_stats, hne]
        · intro p hp hpk
          rcases List.mem_cons.mp hp with h | h
          · rcases hor p with h2 | h2
            · exact h2
            · rw [h2, h]; simp [set_media_stats]
          · exact hset p h (by rw [set_media_stats_kind]; exact hpk)
        · intro p
          rcases hor p with h2 | h2
          · exact Or.inl h2
          · by_cases hpe : p = e
            · left; rw [h2, hpe]; simp [set_media_stats]
            · right; rw [h2]; simp [set_media_stats, hpe]
        · intro p v hmem
          rcases hev p v hmem with h2 | h2
          · rcases List.mem_append.mp h2 with h3 | h3
            · exact Or.inl h3
            · simp only [List.mem_singleton] at h3
              injection h3 with h4 h5
              right; rw [h4]; exact hk
          · right; rw [set_media_stats_kind] at h2; exact h2

/-- One call of the interface ends, keeps the invariant, leaves every object that is not
a `KmsElement` as it was, and writes `media-stats` on `KmsElement`s only. -/
theorem call_statsInvariant (self : MediaPipelineImpl) (c : PipelineCall)
    (hinv : self.statsInvariant) :
    ∃ self1 events,
      self.call c = some (self1, events)
        ∧ self1.statsInvariant
        ∧ (∀ p, (self1.heap p).KMS_IS_ELEMENT = (self.heap p).KMS_IS_ELEMENT)
        ∧ (∀ p, (self.heap p).KMS_IS_ELEMENT = false → self1.heap p = self.heap p)
        ∧ (∀ p v, Event.media_stats p v ∈ events → (self.heap p).KMS_IS_ELEMENT = true) := by
  cases c with
  | addElement ret element =>
    refine ⟨(self.addElement ret element).2.1, (self.addElement ret element).2.2, rfl,
      ?_, ?_, ?_, ?_⟩
    · intro e he hk
      simp only [MediaPipelineImpl.addElement] at he hk ⊢
      cases hke : (self.heap element).KMS_IS_ELEMENT with
      | false =>
        simp only [hke, Bool.false_eq_true, if_false] at he hk ⊢
        have hin : e ∈ self.bin := by
          cases ret
          · simpa using he
          · rcases List.mem_cons.mp (by simpa using he) with h | h
            · rw [h, hke] at hk; cases hk
            · exact h
        exact hinv e hin hk
      | true =>
        simp only [hke, if_true] at he hk ⊢
        by_cases hee : e = element
        · simp [set_media_stats, hee]
        · have hin : e ∈ self.bin := by
            cases ret
            · simpa using he
            · rcases List.mem_cons.mp (by simpa using he) with h | h
              · exact absurd h hee
              · exact h
          have hk2 : (self.heap e).KMS_IS_ELEMENT = true := by
            simpa [set_media_stats, hee] using hk
          simpa [set_media_stats, hee] using hinv e hin hk2
    · intro p
      simp only [MediaPipelineImpl.addElement]
      split
      · exact set_media_stats_kind _ _ _ _
      · rfl
    · intro p hp
      simp only [MediaPipelineImpl.addElement]
      split
      · rename_i hke
        have hne : p ≠ element := fun h => by rw [h, hke] at hp; cases hp
        simp [set_media_stats, hne]
      · rfl
    · intro p v hmem
      simp only [MediaPipelineImpl.addElement] at hmem
      split at hmem
      · rename_i hke
        simp only [List.mem_singleton] at hmem
        injection hmem with h1 h2
        rw [h1]; exact hke
      · simp at hmem
  | setLatencyStats value =>
    by_cases hsame : self.latencyStats = value
    · refine ⟨self, [], ?_, hinv, fun _ => rfl, fun _ _ => rfl, ?_⟩
      · simp [MediaPipelineImpl.call, MediaPipelineImpl.setLatencyStats, hsame]
      · intro p v h; simp at h
    · obtain ⟨heap1, events1, hrun, hkind, hplain, hset, _, hev⟩ :=
        setLatencyStats_loop_spec value self.bin self.bin (self.bin.length + 1) self.heap []
          (Nat.lt_succ_self _)
      refine ⟨{ self with latencyStats := value, heap := heap1 }, events1, ?_, ?_,
        hkind, hplain, ?_⟩
      · simp [MediaPipelineImpl.call, MediaPipelineImpl.setLatencyStats, hsame,
          gst_bin_iterate_elements, hrun]
      · intro e he hk
        exact hset e he (by rw [← hkind e]; exact hk)
      · intro p v hmem
        rcases hev p v hmem with h | h
        · simp at h
        · exact h

/-- Every sequence of calls of the interface ends, keeps the invariant, leaves every
object that is not a `KmsElement` as it was, and writes `media-stats` on `KmsElement`s
only. -/
theorem calls_statsInvariant (cs : List PipelineCall) :
    ∀ self : MediaPipelineImpl, self.statsInvariant →
      ∃ self1 events,
        self.calls cs = some (self1, events)
          ∧ self1.statsInvariant
          ∧ (∀ p, (self1.heap p).KMS_IS_ELEMENT = (self.heap p).KMS_IS_ELEMENT)
          ∧ (∀ p, (self.heap p).KMS_IS_ELEMENT = false → self1.heap p = self.heap p)
          ∧ (∀ p v, Event.media_stats p v ∈ events →
              (self.heap p).KMS_IS_ELEMENT = true) := by
  induction cs with
  | nil =>
    intro self hinv
    exact ⟨self, [], rfl, hinv, fun _ => rfl, fun _ _ => rfl, fun p v h => by simp at h⟩
  | cons c cs ih =>
    intro self hinv
    obtain ⟨s1, ev1, hrun1, hinv1, hkind1, hplain1, hev1⟩ := call_statsInvariant self c hinv
    obtain ⟨s2, ev2, hrun2, hinv2, hkind2, hplain2, hev2⟩ := ih s1 hinv1
    refine ⟨s2, ev1 ++ ev2, ?_, hinv2, ?_, ?_, ?_⟩
    · simp [MediaPipelineImpl.calls, hrun1, hrun2]
    · intro p; rw [hkind2 p, hkind1 p]
    · intro p hp
      rw [hplain2 p (by rw [hkind1 p]; exact hp), hplain1 p hp]
    · intro p v hmem
      rcases List.mem_append.mp hmem with h | h
      · exact hev1 p v h
      · rw [← hkind1 p]; exact hev2 p v h

/-! ## The properties of the specification, C1 to C10 -/

/-- C1, as stated, fails: on a freshly constructed endpoint a `generateOffer` that the
engine refuses throws `SDP_END_POINT_GENERATE_OFFER_ERROR` and leaves `offerInProcess`
false, and the next `generateOffer`, like the next `processOffer` of a well-formed offer,
returns a body instead of throwing `SDP_END_POINT_ALREADY_NEGOTIATED`. -/
theorem C1_failed_generateOffer_consumes_gate_counterexample :
    (worldSample.call gstSample Call.generateOffer engineFail).result
        = Except.error ⟨ErrorCode.SDP_END_POINT_GENERATE_OFFER_ERROR, "Error generating offer"⟩
      ∧ (worldSample.call gstSample Call.generateOffer engineFail).endpoint.offerInProcess = false
      ∧ ((worldSample.call gstSample Call.generateOffer engineFail).world.call gstSample
          Call.generateOffer engineOk).result = Except.ok "v=0\r\n"
      ∧ ((worldSample.call gstSample Call.generateOffer engineFail).world.call gstSample
          (Call.processOffer "v=0") engineOk).result = Except.ok "v=0\r\n" :=
  ⟨rfl, rfl, rfl, rfl⟩

/-- C1, amended: a failed `generateOffer` releases the negotiation gate.  On every
endpoint in its initial state, when the engine returns no offer body `generateOffer`
throws `SDP_END_POINT_GENERATE_OFFER_ERROR` and leaves the endpoint and the pipeline as
they were, `offerInProcess` false included; a later `generateOffer`, and a later
`processOffer` of a non-empty offer that `str_to_sdp` accepts, passes the gate: what it
returns or throws is decided by the engine's answer alone and is never
`SDP_END_POINT_ALREADY_NEGOTIATED`. -/
theorem C1_failed_generateOffer_releases_gate (gst : GstSdp) (eng eng2 : Engine)
    (sessId : String) (isrtpendpoint dosocketreuse : Bool) (pipe : MediaPipelineImpl)
    (offer : String) (offerSdp : GstSDPMessage)
    (hfail : eng.generate_offer = none)
    (hne : offer.isEmpty = false) (hwf : str_to_sdp gst offer = Except.ok offerSdp) :
    ((SdpEndpointImpl.initial sessId isrtpendpoint dosocketreuse).generateOffer eng pipe).result
        = Except.error ⟨ErrorCode.SDP_END_POINT_GENERATE_OFFER_ERROR, "Error generating offer"⟩
      ∧ ((SdpEndpointImpl.initial sessId isrtpendpoint dosocketreuse).generateOffer eng
          pipe).endpoint.offerInProcess = false
      ∧ ((SdpEndpointImpl.initial sessId isrtpendpoint dosocketreuse).generateOffer eng
          pipe).endpoint = SdpEndpointImpl.initial sessId isrtpendpoint dosocketreuse
      ∧ ((SdpEndpointImpl.initial sessId isrtpendpoint dosocketreuse).generateOffer eng
          pipe).pipe = pipe
      ∧ (((SdpEndpointImpl.initial sessId isrtpendpoint dosocketreuse).generateOffer eng
          pipe).endpoint.generateOffer eng2 pipe).result
        = (match eng2.generate_offer with
          | some body => Except.ok (sdp_to_str body)
          | none => Except.error ⟨ErrorCode.SDP_END_POINT_GENERATE_OFFER_ERROR,
              "Error generating offer"⟩)
      ∧ (((SdpEndpointImpl.initial sessId isrtpendpoint dosocketreuse).generateOffer eng
          pipe).endpoint.processOffer gst eng2 pipe offer).result
        = (match eng2.process_offer offerSdp with
          | some body => Except.ok (sdp_to_str body)
          | none => Except.error ⟨ErrorCode.SDP_END_POINT_PROCESS_OFFER_ERROR,
              "Error processing offer"⟩) := by
  have hfree : (SdpEndpointImpl.initial sessId isrtpendpoint dosocketreuse).offerInProcess
      = false := rfl
  have hend : ((SdpEndpointImpl.initial sessId isrtpendpoint dosocketreuse).generateOffer eng
      pipe).endpoint = SdpEndpointImpl.initial sessId isrtpendpoint dosocketreuse := by
    simp [SdpEndpointImpl.generateOffer, SdpEndpointImpl.initial, SdpEndpointImpl.offerInProcess_exchange, compare_exchange_strong, hfail]
  refine ⟨?_, ?_, hend, ?_, ?_, ?_⟩
  · simp [SdpEndpointImpl.generateOffer, SdpEndpointImpl.initial, SdpEndpointImpl.offerInProcess_exchange, compare_exchange_strong, hfail]
  · rw [hend]; rfl
  · simp [SdpEndpointImpl.generateOffer, SdpEndpointImpl.initial, SdpEndpointImpl.offerInProcess_exchange, compare_exchange_strong, hfail]
  · rw [hend]; exact (generateOffer_of_free eng2 _ pipe hfree).1
  · rw [hend]; exact (processOffer_of_free gst eng2 _ pipe offer offerSdp hfree hne hwf).1

/-- C1, amended, at a concrete input: the engine refuses the first `generateOffer` on a
fresh endpoint; the gate is free afterwards and both later calls return a body. -/
theorem C1_failed_generateOffer_releases_gate_witness :
    engineFail.generate_offer = none
      ∧ ("v=0" : String).isEmpty = false
      ∧ str_to_sdp gstSample "v=0" = Except.ok sdpV0
      ∧ ((SdpEndpointImpl.initial "sess0" false false).generateOffer engineFail
          (MediaPipelineImpl.new heapSample)).endpoint.offerInProcess = false
      ∧ (((SdpEndpointImpl.initial "sess0" false false).generateOffer engineFail
          (MediaPipelineImpl.new heapSample)).endpoint.generateOffer engineOk
            (MediaPipelineImpl.new heapSample)).result = Except.ok "v=0\r\n"
      ∧ (((SdpEndpointImpl.initial "sess0" false false).generateOffer engineFail
          (MediaPipelineImpl.new heapSample)).endpoint.processOffer gstSample engineOk
            (MediaPipelineImpl.new heapSample) "v=0").result = Except.ok "v=0\r\n" :=
  ⟨rfl, rfl, rfl,
    (C1_failed_generateOffer_releases_gate gstSample engineFail engineOk "sess0" false false
      (MediaPipelineImpl.new heapSample) "v=0" sdpV0 rfl rfl rfl).2.1,
    (C1_failed_generateOffer_releases_gate gstSample engineFail engineOk "sess0" false false
      (MediaPipelineImpl.new heapSample) "v=0" sdpV0 rfl rfl rfl).2.2.2.2.1,
    (C1_failed_generateOffer_releases_gate gstSample engineFail engineOk "sess0" false false
      (MediaPipelineImpl.new heapSample) "v=0" sdpV0 rfl rfl rfl).2.2.2.2.2⟩

/-- C2, as stated, fails in its last clause: a guard is reset to false.  On a fresh
endpoint the compare-and-set of `generateOffer` sets `offerInProcess` to true; the engine
returns no offer, and the call ends with `offerInProcess` stored back to false, throwing
`SDP_END_POINT_GENERATE_OFFER_ERROR`.  The same happens in `processOffer`. -/
theorem C2_guard_reset_counterexample :
    worldSample.endpoint.offerInProcess_exchange.1 = true
      ∧ worldSample.endpoint.offerInProcess_exchange.2.offerInProcess = true
      ∧ (worldSample.call gstSample Call.generateOffer engineFail).endpoint.offerInProcess = false
      ∧ (worldSample.call gstSample Call.generateOffer engineFail).result
        = Except.error ⟨ErrorCode.SDP_END_POINT_GENERATE_OFFER_ERROR, "Error generating offer"⟩
      ∧ (worldSample.call gstSample (Call.processOffer "v=0") engineFail).endpoint.offerInProcess
        = false
      ∧ (worldSample.call gstSample (Call.processOffer "v=0") engineFail).result
        = Except.error ⟨ErrorCode.SDP_END_POINT_PROCESS_OFFER_ERROR, "Error processing offer"⟩ :=
  ⟨rfl, rfl, rfl, rfl, rfl, rfl⟩

/-- C2, amended: guard monotonicity between calls.  For every endpoint state, every call
of `generateOffer`, `processOffer` or `processAnswer`, every input and every answer of
the engine, each of `offerInProcess`, `waitingAnswer` and `answerProcessed` that is true
before the call is true after it, and so it is after any sequence of calls.  Inside a
call `offerInProcess` is reset: a `generateOffer`, or a `processOffer` of a non-empty
offer that `str_to_sdp` accepts, that finds the gate free sets `offerInProcess` to true
by its compare-and-set and, when the engine returns no body, stores it back to false
before it throws, so that the gate is free again after the call. -/
theorem C2_guard_monotonicity_between_calls (gst : GstSdp) (w : World) :
    (∀ (c : Call) (eng : Engine),
        (w.endpoint.offerInProcess = true → (w.call gst c eng).endpoint.offerInProcess = true)
          ∧ (w.endpoint.waitingAnswer = true → (w.call gst c eng).endpoint.waitingAnswer = true)
          ∧ (w.endpoint.answerProcessed = true →
              (w.call gst c eng).endpoint.answerProcessed = true))
      ∧ (∀ cs : List (Call × Engine),
        (w.endpoint.offerInProcess = true → (w.calls gst cs).endpoint.offerInProcess = true)
          ∧ (w.endpoint.waitingAnswer = true → (w.calls gst cs).endpoint.waitingAnswer = true)
          ∧ (w.endpoint.answerProcessed = true →
              (w.calls gst cs).endpoint.answerProcessed = true))
      ∧ (w.endpoint.offerInProcess = false →
          w.endpoint.offerInProcess_exchange.1 = true
            ∧ w.endpoint.offerInProcess_exchange.2.offerInProcess = true
            ∧ (∀ eng : Engine, eng.generate_offer = none →
                (w.call gst Call.generateOffer eng).endpoint.offerInProcess = false)
            ∧ (∀ (eng : Engine) (offer : String) (offerSdp : GstSDPMessage),
                offer.isEmpty = false → str_to_sdp gst offer = Except.ok offerSdp →
                eng.process_offer offerSdp = none →
                (w.call gst (Call.processOffer offer) eng).endpoint.offerInProcess = false)) := by
  refine ⟨fun c eng => call_guards_mono gst w c eng, fun cs => calls_guards_mono gst cs w, ?_⟩
  intro hfree
  refine ⟨?_, ?_, ?_, ?_⟩
  · simp [SdpEndpointImpl.offerInProcess_exchange, compare_exchange_strong, hfree]
  · simp [SdpEndpointImpl.offerInProcess_exchange, compare_exchange_strong, hfree]
  · intro eng hnone
    have h := (generateOffer_of_free eng w.endpoint w.pipe hfree).2
    simp only [World.call]
    rw [h, hnone]
    exact hfree
  · intro eng offer offerSdp hne hwf hnone
    have h := (processOffer_of_free gst eng w.endpoint w.pipe offer offerSdp hfree hne hwf).2
    simp only [World.call]
    rw [h, hnone]
    exact hfree

/-- C2, amended, at a concrete input: after a `generateOffer` that returned, the gate is
taken, and a refused second `generateOffer`, a refused `processOffer` and an accepted
`processAnswer` leave it taken; on the fresh endpoint a refused `generateOffer` leaves
the gate free. -/
theorem C2_guard_monotonicity_between_calls_witness :
    (worldSample.call gstSample Call.generateOffer engineOk).world.endpoint.offerInProcess = true
      ∧ ((worldSample.call gstSample Call.generateOffer engineOk).world.calls gstSample
          [(Call.generateOffer, engineFail), (Call.processOffer "v=0", engineFail),
            (Call.processAnswer "v=0", engineOk)]).endpoint.offerInProcess = true
      ∧ worldSample.endpoint.offerInProcess = false
      ∧ (worldSample.call gstSample Call.generateOffer engineFail).endpoint.offerInProcess
        = false :=
  ⟨rfl, ((C2_guard_monotonicity_between_calls gstSample
      (worldSample.call gstSample Call.generateOffer engineOk).world).2.1
        [(Call.generateOffer, engineFail), (Call.processOffer "v=0", engineFail),
          (Call.processAnswer "v=0", engineOk)]).1 rfl,
    rfl,
    ((C2_guard_monotonicity_between_calls gstSample worldSample).2.2 rfl).2.2.1
      engineFail rfl⟩

/-- C3: an endpoint negotiates at most once.  Once a `generateOffer` or `processOffer`
call of a sequence has returned a body, then after any further calls every
`generateOffer`, and every `processOffer` of a non-empty offer that `str_to_sdp`
accepts, throws `SDP_END_POINT_ALREADY_NEGOTIATED`, whatever the engine would answer;
and of any sequence of `generateOffer` and `processOffer` calls at most one returns. -/
theorem C3_negotiates_at_most_once (gst : GstSdp) (w : World)
    (before between : List (Call × Engine)) (c : Call) (eng eng2 : Engine)
    (offer : String) (offerSdp : GstSDPMessage)
    (hc : c.isOfferCall = true)
    (hok : succeeded ((w.calls gst before).call gst c eng).result = true)
    (hne : offer.isEmpty = false) (hwf : str_to_sdp gst offer = Except.ok offerSdp) :
    ((((w.calls gst before).call gst c eng).world.calls gst between).call gst
        Call.generateOffer eng2).result
        = Except.error ⟨ErrorCode.SDP_END_POINT_ALREADY_NEGOTIATED, "Endpoint already negotiated"⟩
      ∧ ((((w.calls gst before).call gst c eng).world.calls gst between).call gst
        (Call.processOffer offer) eng2).result
        = Except.error ⟨ErrorCode.SDP_END_POINT_ALREADY_NEGOTIATED, "Endpoint already negotiated"⟩
      ∧ (∀ cs : List (Call × Engine), (∀ x ∈ cs, x.1.isOfferCall = true) →
          w.successes gst cs ≤ 1) := by
  have hgate := offerCall_succeeded_gate gst (w.calls gst before) c eng hc hok
  have hlater := (calls_guards_mono gst between ((w.calls gst before).call gst c eng).world).1
    hgate
  exact ⟨(generateOffer_of_gate eng2 _ _ hlater).1,
    (processOffer_of_gate gst eng2 _ _ offer offerSdp hlater hne hwf).1,
    fun cs hall => successes_le_one gst cs w hall⟩

/-- C3 at a concrete input: a refused `generateOffer`, then a `processOffer` that returns,
then a `processAnswer`; the later `generateOffer` and `processOffer`
throw "already negotiated" although the engine would answer them. -/
theorem C3_negotiates_at_most_once_witness :
    (Call.processOffer "v=0").isOfferCall = true
      ∧ succeeded ((worldSample.calls gstSample [(Call.generateOffer, engineFail)]).call
          gstSample (Call.processOffer "v=0") engineOk).result = true
      ∧ ((((worldSample.calls gstSample [(Call.generateOffer, engineFail)]).call gstSample
          (Call.processOffer "v=0") engineOk).world.calls gstSample
            [(Call.processAnswer "v=0", engineOk)]).call gstSample
              Call.generateOffer engineOk).result
        = Except.error ⟨ErrorCode.SDP_END_POINT_ALREADY_NEGOTIATED, "Endpoint already negotiated"⟩
      ∧ worldSample.successes gstSample
          [(Call.generateOffer, engineFail), (Call.processOffer "v=0", engineOk),
            (Call.generateOffer, engineOk), (Call.processOffer "v=0", engineOk)] ≤ 1 :=
  ⟨rfl, rfl,
    (C3_negotiates_at_most_once gstSample worldSample [(Call.generateOffer, engineFail)]
      [(Call.processAnswer "v=0", engineOk)] (Call.processOffer "v=0") engineOk engineOk
      "v=0" sdpV0 rfl rfl rfl rfl).1,
    (C3_negotiates_at_most_once gstSample worldSample [(Call.generateOffer, engineFail)]
      [(Call.processAnswer "v=0", engineOk)] (Call.processOffer "v=0") engineOk engineOk
      "v=0" sdpV0 rfl rfl rfl rfl).2.2 _ (by decide)⟩

/-- C4: `processAnswer` before any successful `generateOffer`.  From a freshly constructed
endpoint, after any sequence of calls among which no `generateOffer` returned a body,
`processAnswer` of any non-empty body throws `SDP_END_POINT_NOT_OFFER_GENERATED`, leaves
the endpoint (all three guards) and the pipeline as they were and has no effect. -/
theorem C4_processAnswer_without_offer (gst : GstSdp) (sessId : String)
    (isrtpendpoint dosocketreuse : Bool) (pipe : MediaPipelineImpl)
    (cs : List (Call × Engine)) (answer : String) (eng : Engine)
    (hno : World.noGenerateOfferSucceeded gst
      { endpoint := SdpEndpointImpl.initial sessId isrtpendpoint dosocketreuse, pipe := pipe }
      cs = true)
    (hne : answer.isEmpty = false) :
    ((World.calls gst
        { endpoint := SdpEndpointImpl.initial sessId isrtpendpoint dosocketreuse, pipe := pipe }
        cs).call gst (Call.processAnswer answer) eng).result
        = Except.error ⟨ErrorCode.SDP_END_POINT_NOT_OFFER_GENERATED,
            "Offer not generated. It is not possible to process an answer."⟩
      ∧ ((World.calls gst
        { endpoint := SdpEndpointImpl.initial sessId isrtpendpoint dosocketreuse, pipe := pipe }
        cs).call gst (Call.processAnswer answer) eng).endpoint
        = (World.calls gst
          { endpoint := SdpEndpointImpl.initial sessId isrtpendpoint dosocketreuse, pipe := pipe }
          cs).endpoint
      ∧ ((World.calls gst
        { endpoint := SdpEndpointImpl.initial sessId isrtpendpoint dosocketreuse, pipe := pipe }
        cs).call gst (Call.processAnswer answer) eng).pipe
        = (World.calls gst
          { endpoint := SdpEndpointImpl.initial sessId isrtpendpoint dosocketreuse, pipe := pipe }
          cs).pipe
      ∧ ((World.calls gst
        { endpoint := SdpEndpointImpl.initial sessId isrtpendpoint dosocketreuse, pipe := pipe }
        cs).call gst (Call.processAnswer answer) eng).events = [] := by
  have hw := waitingAnswer_of_noGenerateOfferSucceeded gst cs
    { endpoint := SdpEndpointImpl.initial sessId isrtpendpoint dosocketreuse, pipe := pipe }
    rfl hno
  exact processAnswer_of_not_waiting gst eng _ _ answer hw hne

/-- C4 at a concrete input: after a refused `generateOffer` and a `processOffer` that
returned, `processAnswer` throws "offer not generated", for a body that parses and for one
that does not, and the guards stay as `processOffer` left them. -/
theorem C4_processAnswer_without_offer_witness :
    World.noGenerateOfferSucceeded gstSample
        { endpoint := SdpEndpointImpl.initial "sess0" true true,
          pipe := MediaPipelineImpl.new heapSample }
        [(Call.generateOffer, engineFail), (Call.processOffer "v=0", engineOk)] = true
      ∧ ("not sdp" : String).isEmpty = false
      ∧ ((World.calls gstSample
          { endpoint := SdpEndpointImpl.initial "sess0" true true,
            pipe := MediaPipelineImpl.new heapSample }
          [(Call.generateOffer, engineFail), (Call.processOffer "v=0", engineOk)]).call
            gstSample (Call.processAnswer "not sdp") engineOk).result
        = Except.error ⟨ErrorCode.SDP_END_POINT_NOT_OFFER_GENERATED,
            "Offer not generated. It is not possible to process an answer."⟩
      ∧ ((World.calls gstSample
          { endpoint := SdpEndpointImpl.initial "sess0" true true,
            pipe := MediaPipelineImpl.new heapSample }
          [(Call.generateOffer, engineFail), (Call.processOffer "v=0", engineOk)]).call
            gstSample (Call.processAnswer "not sdp") engineOk).endpoint
        = { sessId := "sess0", isrtpendpoint := true, dosocketreuse := true,
            offerInProcess := true, waitingAnswer := false, answerProcessed := false } :=
  ⟨rfl, rfl,
    (C4_processAnswer_without_offer gstSample "sess0" true true
      (MediaPipelineImpl.new heapSample)
      [(Call.generateOffer, engineFail), (Call.processOffer "v=0", engineOk)]
      "not sdp" engineOk rfl rfl).1,
    (C4_processAnswer_without_offer gstSample "sess0" true true
      (MediaPipelineImpl.new heapSample)
      [(Call.generateOffer, engineFail), (Call.processOffer "v=0", engineOk)]
      "not sdp" engineOk rfl rfl).2.1⟩
/-- C5, as stated, fails: after a successful `generateOffer`, two `processAnswer` calls
with the well-formed body `v=0`, which the engine accepts; the engine reports no local
description to the first, which throws `SDP_END_POINT_NO_LOCAL_SDP_ERROR` after it took
`answerProcessed`, and the second throws `SDP_END_POINT_ANSWER_ALREADY_PROCCESED`: none of
the two returns. -/
theorem C5_double_answer_counterexample :
    ({ engineOk with get_local_sdp := none } : Engine).process_answer sdpV0 = true
      ∧ worldSample.results gstSample
          [(Call.generateOffer, engineOk),
            (Call.processAnswer "v=0", { engineOk with get_local_sdp := none }),
            (Call.processAnswer "v=0", engineOk)]
        = [Except.ok "v=0\r\n",
            Except.error ⟨ErrorCode.SDP_END_POINT_NO_LOCAL_SDP_ERROR, "No local SDP"⟩,
            Except.error ⟨ErrorCode.SDP_END_POINT_ANSWER_ALREADY_PROCCESED,
              "Sdp Answer already processed"⟩]
      ∧ (World.calls gstSample worldSample [(Call.generateOffer, engineOk)]).successes gstSample
          [(Call.processAnswer "v=0", { engineOk with get_local_sdp := none }),
            (Call.processAnswer "v=0", engineOk)] = 0 :=
  ⟨rfl, rfl, rfl⟩

/-- C5, amended: double answer.  After a successful `generateOffer` on a fresh endpoint,
of two `processAnswer` calls with non-empty bodies that `str_to_sdp` accepts, the first
of which the engine accepts, the first passes both guards and returns what
`getLocalSessionDescriptor` gives: the engine's local description when it reports one
(`SDP_END_POINT_NO_LOCAL_SDP_ERROR` otherwise); the second throws
`SDP_END_POINT_ANSWER_ALREADY_PROCCESED`, not `SDP_END_POINT_NOT_OFFER_GENERATED`, as
`waitingAnswer` is still true after the first, and it does so whether or not the engine
would accept its body.  So when the engine reports a local description to the first
call, exactly one of the two returns a body. -/
theorem C5_double_answer (gst : GstSdp) (eng0 eng1 eng2 : Engine) (sessId : String)
    (isrtpendpoint dosocketreuse : Bool) (pipe : MediaPipelineImpl)
    (offer0 : GstSDPMessage) (answer1 answer2 : String) (sdp1 sdp2 : GstSDPMessage)
    (hgen : eng0.generate_offer = some offer0)
    (hne1 : answer1.isEmpty = false) (hwf1 : str_to_sdp gst answer1 = Except.ok sdp1)
    (hne2 : answer2.isEmpty = false) (hwf2 : str_to_sdp gst answer2 = Except.ok sdp2)
    (hacc1 : eng1.process_answer sdp1 = true) :
    World.results gst
        { endpoint := SdpEndpointImpl.initial sessId isrtpendpoint dosocketreuse, pipe := pipe }
        [(Call.generateOffer, eng0), (Call.processAnswer answer1, eng1),
          (Call.processAnswer answer2, eng2)]
        = [Except.ok (sdp_to_str offer0),
            (match eng1.get_local_sdp with
              | some localSdp => Except.ok (sdp_to_str localSdp)
              | none => Except.error ⟨ErrorCode.SDP_END_POINT_NO_LOCAL_SDP_ERROR, "No local SDP"⟩),
            Except.error ⟨ErrorCode.SDP_END_POINT_ANSWER_ALREADY_PROCCESED,
              "Sdp Answer already processed"⟩]
      ∧ (World.calls gst
          { endpoint := SdpEndpointImpl.initial sessId isrtpendpoint dosocketreuse, pipe := pipe }
          [(Call.generateOffer, eng0), (Call.processAnswer answer1, eng1)]).endpoint.waitingAnswer
        = true
      ∧ (eng1.get_local_sdp.isSome = true →
          (World.calls gst
            { endpoint := SdpEndpointImpl.initial sessId isrtpendpoint dosocketreuse,
              pipe := pipe }
            [(Call.generateOffer, eng0)]).successes gst
              [(Call.processAnswer answer1, eng1), (Call.processAnswer answer2, eng2)] = 1) := by
  refine ⟨?_, ?_, ?_⟩
  · cases hl : eng1.get_local_sdp <;>
      simp [World.results, World.call, Outcome.world, SdpEndpointImpl.generateOffer,
        SdpEndpointImpl.processAnswer, SdpEndpointImpl.getLocalSessionDescriptor,
        SdpEndpointImpl.initial, SdpEndpointImpl.offerInProcess_exchange, compare_exchange_strong, hgen, hne1, hwf1, hne2, hwf2,
        hacc1, hl]
  · simp [World.calls, World.call, Outcome.world, SdpEndpointImpl.generateOffer,
      SdpEndpointImpl.processAnswer, SdpEndpointImpl.initial, SdpEndpointImpl.offerInProcess_exchange, compare_exchange_strong,
      hgen, hne1, hwf1, hacc1]
  · intro hl
    cases hl2 : eng1.get_local_sdp with
    | none => simp [hl2] at hl
    | some localSdp =>
      simp [World.successes, World.results, World.calls, World.call, Outcome.world,
        SdpEndpointImpl.generateOffer, SdpEndpointImpl.processAnswer,
        SdpEndpointImpl.getLocalSessionDescriptor, SdpEndpointImpl.initial,
        SdpEndpointImpl.offerInProcess_exchange, compare_exchange_strong, succeeded, hgen, hne1, hwf1, hne2, hwf2, hacc1, hl2]

/-- C5, amended, at a concrete input: the engine answers everything; the first
`processAnswer` returns the local description and the second throws "answer already
processed". -/
theorem C5_double_answer_witness :
    engineOk.generate_offer = some sdpV0
      ∧ ("v=0" : String).isEmpty = false
      ∧ str_to_sdp gstSample "v=0" = Except.ok sdpV0
      ∧ engineOk.process_answer sdpV0 = true
      ∧ World.results gstSample
          { endpoint := SdpEndpointImpl.initial "sess0" false false,
            pipe := MediaPipelineImpl.new heapSample }
          [(Call.generateOffer, engineOk), (Call.processAnswer "v=0", engineOk),
            (Call.processAnswer "v=0", engineOk)]
        = [Except.ok "v=0\r\n", Except.ok "v=0\r\n",
            Except.error ⟨ErrorCode.SDP_END_POINT_ANSWER_ALREADY_PROCCESED,
              "Sdp Answer already processed"⟩]
      ∧ (World.calls gstSample
          { endpoint := SdpEndpointImpl.initial "sess0" false false,
            pipe := MediaPipelineImpl.new heapSample }
          [(Call.generateOffer, engineOk)]).successes gstSample
            [(Call.processAnswer "v=0", engineOk), (Call.processAnswer "v=0", engineOk)] = 1 :=
  ⟨rfl, rfl, rfl, rfl,
    (C5_double_answer gstSample engineOk engineOk engineOk "sess0" false false
      (MediaPipelineImpl.new heapSample) sdpV0 "v=0" "v=0" sdpV0 sdpV0
      rfl rfl rfl rfl rfl rfl).1,
    (C5_double_answer gstSample engineOk engineOk engineOk "sess0" false false
      (MediaPipelineImpl.new heapSample) sdpV0 "v=0" "v=0" sdpV0 sdpV0
      rfl rfl rfl rfl rfl rfl).2.2 rfl⟩

/-- C6: empty input is rejected without touching the state.  In every endpoint state
`processOffer ("")` throws `SDP_PARSE_ERROR` "Empty offer not valid" and
`processAnswer ("")` throws `SDP_PARSE_ERROR` "Empty answer not valid"; both leave the
endpoint (all three guards) and the pipeline as they were and emit nothing: no signal
reaches the engine. -/
theorem C6_empty_input_rejected (gst : GstSdp) (eng : Engine) (self : SdpEndpointImpl)
    (pipe : MediaPipelineImpl) :
    ((self.processOffer gst eng pipe "").result
          = Except.error ⟨ErrorCode.SDP_PARSE_ERROR, "Empty offer not valid"⟩
        ∧ (self.processOffer gst eng pipe "").endpoint = self
        ∧ (self.processOffer gst eng pipe "").pipe = pipe
        ∧ (self.processOffer gst eng pipe "").events = [])
      ∧ ((self.processAnswer gst eng pipe "").result
          = Except.error ⟨ErrorCode.SDP_PARSE_ERROR, "Empty answer not valid"⟩
        ∧ (self.processAnswer gst eng pipe "").endpoint = self
        ∧ (self.processAnswer gst eng pipe "").pipe = pipe
        ∧ (self.processAnswer gst eng pipe "").events = []) := by
  have he : ("" : String).isEmpty = true := rfl
  simp [SdpEndpointImpl.processOffer, SdpEndpointImpl.processAnswer, he]
/-- C7: a malformed offer is rejected before the negotiation gate is touched.  For every
endpoint state and every non-empty offer that `gst_sdp_message_parse_buffer` fails to
parse, or parses into a message without version, `processOffer` throws `SDP_PARSE_ERROR`
("Error parsing SDP", respectively "Invalid SDP"), leaves the endpoint (`offerInProcess`
included) and the pipeline as they were and emits nothing.  So on a fresh endpoint a later
`generateOffer`, or a later `processOffer` of a non-empty well-formed offer, passes the
gate: the engine's answer alone decides what it returns or throws. -/
theorem C7_malformed_offer_before_gate (gst : GstSdp) (eng eng2 : Engine)
    (self : SdpEndpointImpl) (pipe : MediaPipelineImpl) (offer good : String)
    (goodSdp : GstSDPMessage)
    (hnew : gst.gst_sdp_message_new = true)
    (hne : offer.isEmpty = false)
    (hbad : gst.gst_sdp_message_parse_buffer (c_str offer) = none
      ∨ ∃ sdp, gst.gst_sdp_message_parse_buffer (c_str offer) = some sdp ∧ sdp.version = none)
    (hgne : good.isEmpty = false) (hgwf : str_to_sdp gst good = Except.ok goodSdp) :
    ((self.processOffer gst eng pipe offer).result
          = Except.error ⟨ErrorCode.SDP_PARSE_ERROR, "Error parsing SDP"⟩
        ∨ (self.processOffer gst eng pipe offer).result
          = Except.error ⟨ErrorCode.SDP_PARSE_ERROR, "Invalid SDP"⟩)
      ∧ (self.processOffer gst eng pipe offer).endpoint = self
      ∧ (self.processOffer gst eng pipe offer).endpoint.offerInProcess = self.offerInProcess
      ∧ (self.processOffer gst eng pipe offer).pipe = pipe
      ∧ (self.processOffer gst eng pipe offer).events = []
      ∧ (self.offerInProcess = false →
          ((self.processOffer gst eng pipe offer).endpoint.generateOffer eng2 pipe).result
            = (match eng2.generate_offer with
              | some body => Except.ok (sdp_to_str body)
              | none => Except.error ⟨ErrorCode.SDP_END_POINT_GENERATE_OFFER_ERROR,
                  "Error generating offer"⟩)
          ∧ ((self.processOffer gst eng pipe offer).endpoint.processOffer gst eng2 pipe
              good).result
            = (match eng2.process_offer goodSdp with
              | some body => Except.ok (sdp_to_str body)
              | none => Except.error ⟨ErrorCode.SDP_END_POINT_PROCESS_OFFER_ERROR,
                  "Error processing offer"⟩)) := by
  have hend : (self.processOffer gst eng pipe offer).endpoint = self := by
    rcases hbad with h | ⟨sdp, h, hv⟩ <;>
      simp [SdpEndpointImpl.processOffer, str_to_sdp, hnew, hne, h, *]
  refine ⟨?_, hend, by rw [hend], ?_, ?_, ?_⟩
  · rcases hbad with h | ⟨sdp, h, hv⟩
    · left; simp [SdpEndpointImpl.processOffer, str_to_sdp, hnew, hne, h]
    · right; simp [SdpEndpointImpl.processOffer, str_to_sdp, hnew, hne, h, hv]
  · rcases hbad with h | ⟨sdp, h, hv⟩ <;>
      simp [SdpEndpointImpl.processOffer, str_to_sdp, hnew, hne, h, *]
  · rcases hbad with h | ⟨sdp, h, hv⟩ <;>
      simp [SdpEndpointImpl.processOffer, str_to_sdp, hnew, hne, h, *]
  · intro hfree
    rw [hend]
    exact ⟨(generateOffer_of_free eng2 self pipe hfree).1,
      (processOffer_of_free gst eng2 self pipe good goodSdp hfree hgne hgwf).1⟩

/-- C7 at a concrete input: on a fresh endpoint the offer `s=-`, which parses into a
message without version, is thrown out as "Invalid SDP" with the gate untouched, and the
`generateOffer` that follows returns the engine's offer. -/
theorem C7_malformed_offer_before_gate_witness :
    gstSample.gst_sdp_message_new = true
      ∧ ("s=-" : String).isEmpty = false
      ∧ (gstSample.gst_sdp_message_parse_buffer (c_str "s=-") = none
        ∨ ∃ sdp, gstSample.gst_sdp_message_parse_buffer (c_str "s=-") = some sdp
          ∧ sdp.version = none)
      ∧ ((SdpEndpointImpl.initial "sess0" false false).processOffer gstSample engineOk
          (MediaPipelineImpl.new heapSample) "s=-").endpoint.offerInProcess = false
      ∧ (((SdpEndpointImpl.initial "sess0" false false).processOffer gstSample engineOk
          (MediaPipelineImpl.new heapSample) "s=-").endpoint.generateOffer engineOk
            (MediaPipelineImpl.new heapSample)).result = Except.ok "v=0\r\n" :=
  ⟨rfl, rfl, Or.inr ⟨sdpNoVersion, rfl, rfl⟩,
    (C7_malformed_offer_before_gate gstSample engineOk engineOk
      (SdpEndpointImpl.initial "sess0" false false) (MediaPipelineImpl.new heapSample)
      "s=-" "v=0" sdpV0 rfl rfl (Or.inr ⟨sdpNoVersion, rfl, rfl⟩) rfl rfl).2.2.1,
    ((C7_malformed_offer_before_gate gstSample engineOk engineOk
      (SdpEndpointImpl.initial "sess0" false false) (MediaPipelineImpl.new heapSample)
      "s=-" "v=0" sdpV0 rfl rfl (Or.inr ⟨sdpNoVersion, rfl, rfl⟩) rfl rfl).2.2.2.2.2 rfl).1⟩
/-- C8: the socket pool's replacement rule.  For every pool state and every four new
handles, `setSockets` issues for each slot, in slot order, exactly the closes of the
spec's rule: the slot's old handle is closed if and only if the slot was non-empty and
the new handle differs from it; afterwards `getSockets` returns the four handles just
set.  A handle is therefore closed by the call exactly when some slot held it and gets a
different one.  Setting a slot to `A` and then to a different `B` closes `A` once and
stores `B`; setting it to `A` twice in a row closes nothing the second time. -/
theorem C8_setSockets_replacement_rule (self : MediaPipelineImpl) (a b c d : GSocket) :
    (self.setSockets a b c d).2
        = spec_slot_replacement self.rtp_socket_reuse_audio a
          ++ spec_slot_replacement self.rtcp_socket_reuse_audio b
          ++ spec_slot_replacement self.rtp_socket_reuse_video c
          ++ spec_slot_replacement self.rtcp_socket_reuse_video d
      ∧ (∀ old new : GSocket,
          Event.rtp_socket_close old ∈ spec_slot_replacement old new ↔ old ≠ NULL ∧ new ≠ old)
      ∧ (self.setSockets a b c d).1.getSockets = (a, b, c, d)
      ∧ (∀ h : GSocket, Event.rtp_socket_close h ∈ (self.setSockets a b c d).2 ↔
          h ≠ NULL ∧ ((self.rtp_socket_reuse_audio = h ∧ a ≠ h)
            ∨ (self.rtcp_socket_reuse_audio = h ∧ b ≠ h)
            ∨ (self.rtp_socket_reuse_video = h ∧ c ≠ h)
            ∨ (self.rtcp_socket_reuse_video = h ∧ d ≠ h)))
      ∧ (∀ A B : GSocket, A ≠ NULL → B ≠ A →
          ((self.setSockets A b c d).1.setSockets B b c d).2 = [Event.rtp_socket_close A]
            ∧ ((self.setSockets A b c d).1.setSockets B b c d).1.rtp_socket_reuse_audio = B)
      ∧ (∀ A : GSocket,
          ((self.setSockets A b c d).1.setSockets A b c d).2 = []
            ∧ ((self.setSockets A b c d).1.setSockets A b c d).1.rtp_socket_reuse_audio = A) := by
  have hsplit : (self.setSockets a b c d).2
      = spec_slot_replacement self.rtp_socket_reuse_audio a
        ++ spec_slot_replacement self.rtcp_socket_reuse_audio b
        ++ spec_slot_replacement self.rtp_socket_reuse_video c
        ++ spec_slot_replacement self.rtcp_socket_reuse_video d := by
    simp only [MediaPipelineImpl.setSockets, spec_slot_replacement]
    by_cases h1 : self.rtp_socket_reuse_audio = NULL <;>
    by_cases h2 : self.rtcp_socket_reuse_audio = NULL <;>
    by_cases h3 : self.rtp_socket_reuse_video = NULL <;>
    by_cases h4 : self.rtcp_socket_reuse_video = NULL <;>
    by_cases e1 : a = self.rtp_socket_reuse_audio <;>
    by_cases e2 : b = self.rtcp_socket_reuse_audio <;>
    by_cases e3 : c = self.rtp_socket_reuse_video <;>
    by_cases e4 : d = self.rtcp_socket_reuse_video <;>
    simp [h1, h2, h3, h4, e1, e2, e3, e4, eq_comm]
  refine ⟨hsplit, ?_, rfl, ?_, ?_, ?_⟩
  · intro old new
    by_cases h1 : old = NULL <;> by_cases h2 : new = old <;>
      simp [spec_slot_replacement, h1, h2]
  · intro h
    rw [hsplit]
    simp only [List.mem_append, mem_spec_slot_replacement]
    constructor
    · rintro (((⟨e, hn, hd⟩ | ⟨e, hn, hd⟩) | ⟨e, hn, hd⟩) | ⟨e, hn, hd⟩) <;> subst e
      · exact ⟨hn, Or.inl ⟨rfl, hd⟩⟩
      · exact ⟨hn, Or.inr (Or.inl ⟨rfl, hd⟩)⟩
      · exact ⟨hn, Or.inr (Or.inr (Or.inl ⟨rfl, hd⟩))⟩
      · exact ⟨hn, Or.inr (Or.inr (Or.inr ⟨rfl, hd⟩))⟩
    · rintro ⟨hn, (⟨e, hd⟩ | ⟨e, hd⟩ | ⟨e, hd⟩ | ⟨e, hd⟩)⟩ <;> subst e
      · exact Or.inl (Or.inl (Or.inl ⟨rfl, hn, hd⟩))
      · exact Or.inl (Or.inl (Or.inr ⟨rfl, hn, hd⟩))
      · exact Or.inl (Or.inr ⟨rfl, hn, hd⟩)
      · exact Or.inr ⟨rfl, hn, hd⟩
  · intro A B hA hB
    have hB2 : ¬ A = B := fun h => hB h.symm
    simp [MediaPipelineImpl.setSockets, hA, hB2]
  · intro A
    simp [MediaPipelineImpl.setSockets]
/-- C9, as stated, fails: when the audio RTP slot and the audio RTCP slot hold the
identical handle `7`, the destructor issues `rtp-socket-close` for `7` twice. -/
theorem C9_teardown_closes_once_counterexample :
    (poolOf 7 7 NULL NULL).destructor.2
        = [Event.rtp_socket_close 7, Event.rtp_socket_close 7]
      ∧ (poolOf 7 7 NULL NULL).destructor.2.count (Event.rtp_socket_close 7) = 2 :=
  ⟨rfl, rfl⟩

/-- C9, amended: teardown closes every non-empty slot exactly once.  For every pool state
the destructor issues, in slot order, one close per non-empty slot, for the handle that
slot holds, and none for an empty slot; so a handle is closed as many times as slots
hold it: once each when the handles held are distinct, twice when two slots hold the
identical handle.  All four slots are empty afterwards. -/
theorem C9_teardown_closes_each_slot_once (self : MediaPipelineImpl) :
    self.destructor.2
        = (self.slots.filter (fun s => decide (s ≠ NULL))).map Event.rtp_socket_close
      ∧ (∀ h : GSocket, h ≠ NULL →
          self.destructor.2.count (Event.rtp_socket_close h) = self.slots.count h)
      ∧ Event.rtp_socket_close NULL ∉ self.destructor.2
      ∧ ((self.slots.filter (fun s => decide (s ≠ NULL))).Nodup → self.destructor.2.Nodup)
      ∧ self.destructor.1.slots = [NULL, NULL, NULL, NULL] := by
  have hinj : Function.Injective Event.rtp_socket_close := by
    intro x y hxy
    injection hxy
  have hev : self.destructor.2
      = (self.slots.filter (fun s => decide (s ≠ NULL))).map Event.rtp_socket_close := by
    simp only [MediaPipelineImpl.destructor, MediaPipelineImpl.slots]
    by_cases h1 : self.rtp_socket_reuse_audio = NULL <;>
    by_cases h2 : self.rtcp_socket_reuse_audio = NULL <;>
    by_cases h3 : self.rtp_socket_reuse_video = NULL <;>
    by_cases h4 : self.rtcp_socket_reuse_video = NULL <;>
    simp [h1, h2, h3, h4, List.filter]
  refine ⟨hev, ?_, ?_, ?_, ?_⟩
  · intro h hn
    rw [hev, List.count_map_of_injective _ _ hinj, List.count_filter]
    simpa using hn
  · rw [hev]
    simp
  · intro hnd
    rw [hev]
    exact hnd.map hinj
  · simp only [MediaPipelineImpl.destructor, MediaPipelineImpl.slots]
    by_cases h1 : self.rtp_socket_reuse_audio = NULL <;>
    by_cases h2 : self.rtcp_socket_reuse_audio = NULL <;>
    by_cases h3 : self.rtp_socket_reuse_video = NULL <;>
    by_cases h4 : self.rtcp_socket_reuse_video = NULL <;>
    simp [h1, h2, h3, h4]
/-- C10: the latency-statistics invariant.  Starting from the pipeline the constructor
leaves (empty bin, `latencyStats = false`), every sequence of `addElement` and
`setLatencyStats` calls runs to its end, and afterwards every child of the bin that is a
`KmsElement` has `media-stats` equal to the pipeline's `latencyStats`, while every object
that is not a `KmsElement` is as it was before the calls and no `media-stats` write was
issued on it. -/
theorem C10_latency_stats_invariant (heap : GstElementPtr → GstElement)
    (cs : List PipelineCall) :
    ∃ self1 events,
      (MediaPipelineImpl.new heap).calls cs = some (self1, events)
        ∧ (∀ e ∈ self1.bin, (self1.heap e).KMS_IS_ELEMENT = true →
            (self1.heap e).media_stats = self1.getLatencyStats)
        ∧ (∀ p, (heap p).KMS_IS_ELEMENT = false →
            self1.heap p = heap p ∧ ∀ v, Event.media_stats p v ∉ events) := by
  have hinit : (MediaPipelineImpl.new heap).statsInvariant := by
    intro e he
    simp [MediaPipelineImpl.new] at he
  obtain ⟨self1, events, hrun, hinv, _, hplain, hev⟩ :=
    calls_statsInvariant cs (MediaPipelineImpl.new heap) hinit
  refine ⟨self1, events, hrun, hinv, ?_⟩
  intro p hp
  refine ⟨hplain p hp, ?_⟩
  intro v hmem
  have := hev p v hmem
  simp only [MediaPipelineImpl.new] at this hp
  rw [hp] at this
  cases this

/-- C10 at a concrete input: children `1` (a `KmsElement`) and `2` (not one) are added,
then `setLatencyStats (true)`, then the `KmsElement` `3` is added.  The flag of `1`
becomes true, `2` is untouched, `3` gets the flag true when it is added. -/
theorem C10_latency_stats_invariant_witness :
    (((MediaPipelineImpl.new heapSample).calls
        [PipelineCall.addElement true 1, PipelineCall.addElement true 2,
          PipelineCall.setLatencyStats true, PipelineCall.addElement true 3]).map
        (fun r => (r.1.latencyStats, r.1.bin, (r.1.heap 1).media_stats, r.1.heap 2,
          (r.1.heap 3).media_stats, r.2)))
        = some (true, [3, 2, 1], true, heapSample 2, true,
            [Event.media_stats 1 false, Event.media_stats 1 true, Event.media_stats 3 true])
      ∧ ∃ self1 events,
        (MediaPipelineImpl.new heapSample).calls
            [PipelineCall.addElement true 1, PipelineCall.addElement true 2,
              PipelineCall.setLatencyStats true, PipelineCall.addElement true 3]
          = some (self1, events)
        ∧ (∀ e ∈ self1.bin, (self1.heap e).KMS_IS_ELEMENT = true →
            (self1.heap e).media_stats = self1.getLatencyStats)
        ∧ (∀ p, (heapSample p).KMS_IS_ELEMENT = false →
            self1.heap p = heapSample p ∧ ∀ v, Event.media_stats p v ∉ events) :=
  ⟨rfl, C10_latency_stats_invariant heapSample _⟩

/-! ## Negotiation: `processAnswer` behind its guards -/

/-- With `waitingAnswer` set, `processAnswer` of a non-empty body that does not parse, or
parses into a message without version, throws `SDP_PARSE_ERROR` and changes nothing. -/
theorem processAnswer_malformed_of_waiting (gst : GstSdp) (eng : Engine)
    (self : SdpEndpointImpl) (pipe : MediaPipelineImpl) (answer : String)
    (hw : self.waitingAnswer = true) (hnew : gst.gst_sdp_message_new = true)
    (hne : answer.isEmpty = false)
    (hbad : gst.gst_sdp_message_parse_buffer (c_str answer) = none
      ∨ ∃ sdp, gst.gst_sdp_message_parse_buffer (c_str answer) = some sdp ∧ sdp.version = none) :
    ((self.processAnswer gst eng pipe answer).result
          = Except.error ⟨ErrorCode.SDP_PARSE_ERROR, "Error parsing SDP"⟩
        ∨ (self.processAnswer gst eng pipe answer).result
          = Except.error ⟨ErrorCode.SDP_PARSE_ERROR, "Invalid SDP"⟩)
      ∧ (self.processAnswer gst eng pipe answer).endpoint = self
      ∧ (self.processAnswer gst eng pipe answer).pipe = pipe
      ∧ (self.processAnswer gst eng pipe answer).events = [] := by
  cases self with
  | mk s r d o w a =>
    simp only at hw
    subst hw
    rcases hbad with h | ⟨sdp, h, hv⟩
    · simp [SdpEndpointImpl.processAnswer, compare_exchange_strong, str_to_sdp, hnew, hne, h]
    · simp [SdpEndpointImpl.processAnswer, compare_exchange_strong, str_to_sdp, hnew, hne, h, hv]

/-- With `waitingAnswer` and `answerProcessed` both set, `processAnswer` of a non-empty
body that `str_to_sdp` accepts throws "answer already processed", changes nothing and
emits nothing. -/
theorem processAnswer_of_answered (gst : GstSdp) (eng : Engine) (self : SdpEndpointImpl)
    (pipe : MediaPipelineImpl) (answer : String) (answerSdp : GstSDPMessage)
    (hw : self.waitingAnswer = true) (ha : self.answerProcessed = true)
    (hne : answer.isEmpty = false) (hwf : str_to_sdp gst answer = Except.ok answerSdp) :
    (self.processAnswer gst eng pipe answer).result
        = Except.error ⟨ErrorCode.SDP_END_POINT_ANSWER_ALREADY_PROCCESED,
            "Sdp Answer already processed"⟩
      ∧ (self.processAnswer gst eng pipe answer).endpoint = self
      ∧ (self.processAnswer gst eng pipe answer).pipe = pipe
      ∧ (self.processAnswer gst eng pipe answer).events = [] := by
  cases self with
  | mk s r d o w a =>
    simp only at hw ha
    subst hw
    subst ha
    simp [SdpEndpointImpl.processAnswer, compare_exchange_strong, hne, hwf]

/-- With `answerProcessed` set, no `processAnswer` returns a body, whatever its input and
the engine's answers. -/
theorem processAnswer_fails_of_answered (gst : GstSdp) (eng : Engine) (self : SdpEndpointImpl)
    (pipe : MediaPipelineImpl) (answer : String) (ha : self.answerProcessed = true) :
    succeeded (self.processAnswer gst eng pipe answer).result = false := by
  cases self with
  | mk s r d o w a =>
    simp only at ha
    subst ha
    unfold SdpEndpointImpl.processAnswer
    cases he : answer.isEmpty
    · cases w
      · simp [compare_exchange_strong, succeeded]
      · cases hs : str_to_sdp gst answer with
        | error e => simp [compare_exchange_strong, succeeded]
        | ok answerSdp => simp [compare_exchange_strong, succeeded]
    · simp [succeeded]

/-- A `processAnswer` of a non-empty body that `str_to_sdp` accepts, made with
`waitingAnswer` set and `answerProcessed` free, that the engine rejects: it throws
"error processing answer" and leaves `answerProcessed` set. -/
theorem processAnswer_rejected (gst : GstSdp) (eng : Engine) (self : SdpEndpointImpl)
    (pipe : MediaPipelineImpl) (answer : String) (answerSdp : GstSDPMessage)
    (hw : self.waitingAnswer = true) (ha : self.answerProcessed = false)
    (hne : answer.isEmpty = false) (hwf : str_to_sdp gst answer = Except.ok answerSdp)
    (hrej : eng.process_answer answerSdp = false) :
    (self.processAnswer gst eng pipe answer).result
        = Except.error ⟨ErrorCode.SDP_END_POINT_PROCESS_ANSWER_ERROR, "Error processing answer"⟩
      ∧ (self.processAnswer gst eng pipe answer).endpoint
        = { self with answerProcessed := true }
      ∧ (self.processAnswer gst eng pipe answer).events
        = [Event.emit "process-answer" self.sessId] := by
  cases self with
  | mk s r d o w a =>
    simp only at hw ha
    subst hw
    subst ha
    simp [SdpEndpointImpl.processAnswer, compare_exchange_strong, hne, hwf, hrej]

/-- A `processAnswer` that throws "error processing answer" has passed both guards and
asked the engine: `waitingAnswer` and `answerProcessed` are both set after it. -/
theorem processAnswer_error_guards (gst : GstSdp) (eng : Engine) (self : SdpEndpointImpl)
    (pipe : MediaPipelineImpl) (answer : String)
    (hrej : (self.processAnswer gst eng pipe answer).result
      = Except.error ⟨ErrorCode.SDP_END_POINT_PROCESS_ANSWER_ERROR, "Error processing answer"⟩) :
    (self.processAnswer gst eng pipe answer).endpoint.waitingAnswer = true
      ∧ (self.processAnswer gst eng pipe answer).endpoint.answerProcessed = true
      ∧ self.answerProcessed = false
      ∧ (self.processAnswer gst eng pipe answer).events
        = [Event.emit "process-answer" self.sessId] := by
  cases self with
  | mk s r d o w a =>
    unfold SdpEndpointImpl.processAnswer at hrej ⊢
    cases he : answer.isEmpty
    · cases w
      · simp [he, compare_exchange_strong] at hrej
      · cases hs : str_to_sdp gst answer with
        | error e =>
          exfalso
          unfold str_to_sdp at hs
          cases hn : gst.gst_sdp_message_new
          · simp [hn] at hs
            subst hs
            simp [he, compare_exchange_strong, str_to_sdp, hn] at hrej
          · cases hp : gst.gst_sdp_message_parse_buffer (c_str answer) with
            | none =>
              simp [hn, hp] at hs
              subst hs
              simp [he, compare_exchange_strong, str_to_sdp, hn, hp] at hrej
            | some sdp =>
              cases hv : sdp.version with
              | none =>
                simp [hn, hp, hv] at hs
                subst hs
                simp [he, compare_exchange_strong, str_to_sdp, hn, hp, hv] at hrej
              | some v => simp [hn, hp, hv] at hs
        | ok answerSdp =>
          cases a
          · cases hp : eng.process_answer answerSdp
            · simp [he, hs, compare_exchange_strong, hp]
            · exfalso
              cases hl : eng.get_local_sdp <;>
                simp [he, hs, compare_exchange_strong, hp,
                  SdpEndpointImpl.getLocalSessionDescriptor, hl] at hrej
          · simp [he, hs, compare_exchange_strong] at hrej
    · simp [he] at hrej


/-! ## The socket pool: what `setSockets` closes -/

/-- The closes of `setSockets` are, slot by slot, those of the replacement rule. -/
theorem setSockets_closes (self : MediaPipelineImpl) (a b c d : GSocket) :
    (self.setSockets a b c d).2
      = spec_slot_replacement self.rtp_socket_reuse_audio a
        ++ spec_slot_replacement self.rtcp_socket_reuse_audio b
        ++ spec_slot_replacement self.rtp_socket_reuse_video c
        ++ spec_slot_replacement self.rtcp_socket_reuse_video d := by
  simp only [MediaPipelineImpl.setSockets, spec_slot_replacement]
  by_cases h1 : self.rtp_socket_reuse_audio = NULL <;>
  by_cases h2 : self.rtcp_socket_reuse_audio = NULL <;>
  by_cases h3 : self.rtp_socket_reuse_video = NULL <;>
  by_cases h4 : self.rtcp_socket_reuse_video = NULL <;>
  by_cases e1 : a = self.rtp_socket_reuse_audio <;>
  by_cases e2 : b = self.rtcp_socket_reuse_audio <;>
  by_cases e3 : c = self.rtp_socket_reuse_video <;>
  by_cases e4 : d = self.rtcp_socket_reuse_video <;>
  simp [h1, h2, h3, h4, e1, e2, e3, e4, eq_comm]

/-- A handle is closed by `setSockets` exactly when some slot held it and gets a
different one. -/
theorem mem_setSockets_closes (self : MediaPipelineImpl) (a b c d h : GSocket) :
    Event.rtp_socket_close h ∈ (self.setSockets a b c d).2 ↔
      h ≠ NULL ∧ ((self.rtp_socket_reuse_audio = h ∧ a ≠ h)
        ∨ (self.rtcp_socket_reuse_audio = h ∧ b ≠ h)
        ∨ (self.rtp_socket_reuse_video = h ∧ c ≠ h)
        ∨ (self.rtcp_socket_reuse_video = h ∧ d ≠ h)) := by
  rw [setSockets_closes]
  simp only [List.mem_append, mem_spec_slot_replacement]
  constructor
  · rintro (((⟨e, hn, hd⟩ | ⟨e, hn, hd⟩) | ⟨e, hn, hd⟩) | ⟨e, hn, hd⟩) <;> subst e
    · exact ⟨hn, Or.inl ⟨rfl, hd⟩⟩
    · exact ⟨hn, Or.inr (Or.inl ⟨rfl, hd⟩)⟩
    · exact ⟨hn, Or.inr (Or.inr (Or.inl ⟨rfl, hd⟩))⟩
    · exact ⟨hn, Or.inr (Or.inr (Or.inr ⟨rfl, hd⟩))⟩
  · rintro ⟨hn, (⟨e, hd⟩ | ⟨e, hd⟩ | ⟨e, hd⟩ | ⟨e, hd⟩)⟩ <;> subst e
    · exact Or.inl (Or.inl (Or.inl ⟨rfl, hn, hd⟩))
    · exact Or.inl (Or.inl (Or.inr ⟨rfl, hn, hd⟩))
    · exact Or.inl (Or.inr ⟨rfl, hn, hd⟩)
    · exact Or.inr ⟨rfl, hn, hd⟩


/-! ## The properties of the specification, C11 to C14 -/

/-- C11, as stated, fails: for the kind `rtpendpoint` and a configuration that holds no
`socketreuse` parameter the constructor sets `dosocketreuse` to true. -/
theorem C11_socket_reuse_default_counterexample :
    configEmpty.guint PARAM_SOCKET_REUSE = none
      ∧ (SdpEndpointImpl.constructor configEmpty "rtpendpoint" false).1.dosocketreuse = true
      ∧ (SdpEndpointImpl.constructor configEmpty "rtpendpoint" false).2.reuse_socket = true :=
  ⟨rfl, rfl, rfl⟩

/-- C11, amended: socket reuse is on for the kind `rtpendpoint` unless the configuration
turns it off.  For every kind and every configuration the constructor sets
`dosocketreuse` to true if and only if the kind is `rtpendpoint` and the `socketreuse`
value, read with default `1`, is `1`: that is, the configuration holds `socketreuse`
with value `1` or holds no `socketreuse` at all.  So without a `socketreuse` parameter
`dosocketreuse` is true for `rtpendpoint` and false for every other kind.  The element's
`reuse-socket` property gets the same value. -/
theorem C11_socket_reuse_enabled (config : Config) (factoryName : String) (useIpv6 : Bool) :
    ((SdpEndpointImpl.constructor config factoryName useIpv6).1.dosocketreuse = true ↔
        factoryName = "rtpendpoint" ∧ getConfigValue_guint config PARAM_SOCKET_REUSE 1 = 1)
      ∧ ((SdpEndpointImpl.constructor config factoryName useIpv6).1.dosocketreuse = true ↔
        factoryName = "rtpendpoint"
          ∧ (config.guint PARAM_SOCKET_REUSE = some 1 ∨ config.guint PARAM_SOCKET_REUSE = none))
      ∧ (config.guint PARAM_SOCKET_REUSE = none →
          ((SdpEndpointImpl.constructor config factoryName useIpv6).1.dosocketreuse = true ↔
            factoryName = "rtpendpoint"))
      ∧ (SdpEndpointImpl.constructor config factoryName useIpv6).1.isrtpendpoint
        = decide (factoryName = "rtpendpoint")
      ∧ (SdpEndpointImpl.constructor config factoryName useIpv6).2.reuse_socket
        = (SdpEndpointImpl.constructor config factoryName useIpv6).1.dosocketreuse := by
  have h1 : (SdpEndpointImpl.constructor config factoryName useIpv6).1.dosocketreuse = true ↔
      factoryName = "rtpendpoint" ∧ getConfigValue_guint config PARAM_SOCKET_REUSE 1 = 1 := by
    simp only [SdpEndpointImpl.constructor]
    by_cases hk : factoryName = "rtpendpoint" <;>
      by_cases hv : getConfigValue_guint config PARAM_SOCKET_REUSE 1 = 1 <;>
      simp [hk, hv]
  have h2 : getConfigValue_guint config PARAM_SOCKET_REUSE 1 = 1 ↔
      (config.guint PARAM_SOCKET_REUSE = some 1 ∨ config.guint PARAM_SOCKET_REUSE = none) := by
    unfold getConfigValue_guint
    cases hc : config.guint PARAM_SOCKET_REUSE <;> simp
  refine ⟨h1, ?_, ?_, ?_, rfl⟩
  · rw [h1, h2]
  · intro hnone
    rw [h1, h2]
    simp [hnone]
  · simp only [SdpEndpointImpl.constructor]
    by_cases hk : factoryName = "rtpendpoint" <;> simp [hk]

/-- C12, as stated, fails: on a fresh endpoint, where no offer has been generated,
`processAnswer` of the non-empty body `not sdp`, which does not parse, and of the body
`s=-`, which has no version, throws `SDP_END_POINT_NOT_OFFER_GENERATED`, not
`SDP_PARSE_ERROR`. -/
theorem C12_answer_validated_first_counterexample :
    ("not sdp" : String).isEmpty = false
      ∧ gstSample.gst_sdp_message_parse_buffer (c_str "not sdp") = none
      ∧ (worldSample.call gstSample (Call.processAnswer "not sdp") engineOk).result
        = Except.error ⟨ErrorCode.SDP_END_POINT_NOT_OFFER_GENERATED,
            "Offer not generated. It is not possible to process an answer."⟩
      ∧ gstSample.gst_sdp_message_parse_buffer (c_str "s=-") = some sdpNoVersion
      ∧ (worldSample.call gstSample (Call.processAnswer "s=-") engineOk).result
        = Except.error ⟨ErrorCode.SDP_END_POINT_NOT_OFFER_GENERATED,
            "Offer not generated. It is not possible to process an answer."⟩ :=
  ⟨rfl, rfl, rfl, rfl, rfl⟩

/-- C12, amended: `processAnswer` verifies `waitingAnswer` before it validates its input.
For every endpoint state and every non-empty answer that `gst_sdp_message_parse_buffer`
fails to parse, or parses into a message without version, `processAnswer` throws
`SDP_END_POINT_NOT_OFFER_GENERATED` when `waitingAnswer` is false (no offer has been
generated) and `SDP_PARSE_ERROR` ("Error parsing SDP", respectively "Invalid SDP") when
`waitingAnswer` is true; in both cases the endpoint and the pipeline are left as they
were and nothing is emitted.  So "offer not generated" is thrown for bodies that do not
parse as well as for bodies that parse. -/
theorem C12_answer_checked_after_guard (gst : GstSdp) (eng : Engine) (self : SdpEndpointImpl)
    (pipe : MediaPipelineImpl) (answer : String)
    (hnew : gst.gst_sdp_message_new = true)
    (hne : answer.isEmpty = false)
    (hbad : gst.gst_sdp_message_parse_buffer (c_str answer) = none
      ∨ ∃ sdp, gst.gst_sdp_message_parse_buffer (c_str answer) = some sdp ∧ sdp.version = none) :
    (self.waitingAnswer = false →
        (self.processAnswer gst eng pipe answer).result
          = Except.error ⟨ErrorCode.SDP_END_POINT_NOT_OFFER_GENERATED,
              "Offer not generated. It is not possible to process an answer."⟩)
      ∧ (self.waitingAnswer = true →
        ((self.processAnswer gst eng pipe answer).result
            = Except.error ⟨ErrorCode.SDP_PARSE_ERROR, "Error parsing SDP"⟩
          ∨ (self.processAnswer gst eng pipe answer).result
            = Except.error ⟨ErrorCode.SDP_PARSE_ERROR, "Invalid SDP"⟩))
      ∧ (self.processAnswer gst eng pipe answer).endpoint = self
      ∧ (self.processAnswer gst eng pipe answer).pipe = pipe
      ∧ (self.processAnswer gst eng pipe answer).events = [] := by
  cases hw : self.waitingAnswer with
  | false =>
    have h := processAnswer_of_not_waiting gst eng self pipe answer hw hne
    exact ⟨fun _ => h.1, fun hc => (by cases hc), h.2.1, h.2.2.1, h.2.2.2⟩
  | true =>
    have h := processAnswer_malformed_of_waiting gst eng self pipe answer hw hnew hne hbad
    exact ⟨fun hc => (by cases hc), fun _ => h.1, h.2.1, h.2.2.1, h.2.2.2⟩

/-- C12, amended, at a concrete input: the body `not sdp` gets "offer not generated" on a
fresh endpoint and "Error parsing SDP" after a `generateOffer` that returned. -/
theorem C12_answer_checked_after_guard_witness :
    gstSample.gst_sdp_message_new = true
      ∧ ("not sdp" : String).isEmpty = false
      ∧ (gstSample.gst_sdp_message_parse_buffer (c_str "not sdp") = none
        ∨ ∃ sdp, gstSample.gst_sdp_message_parse_buffer (c_str "not sdp") = some sdp
          ∧ sdp.version = none)
      ∧ (worldSample.endpoint.processAnswer gstSample engineOk worldSample.pipe
          "not sdp").result
        = Except.error ⟨ErrorCode.SDP_END_POINT_NOT_OFFER_GENERATED,
            "Offer not generated. It is not possible to process an answer."⟩
      ∧ ((worldSample.call gstSample Call.generateOffer engineOk).endpoint.processAnswer
          gstSample engineOk worldSample.pipe "not sdp").result
        = Except.error ⟨ErrorCode.SDP_PARSE_ERROR, "Error parsing SDP"⟩ :=
  ⟨rfl, rfl, Or.inl rfl,
    (C12_answer_checked_after_guard gstSample engineOk worldSample.endpoint worldSample.pipe
      "not sdp" rfl rfl (Or.inl rfl)).1 rfl,
    rfl⟩

/-- C13: an answer rejected by the engine is permanent.  In every state of an endpoint,
so in particular after a `generateOffer` that returned, when a `processAnswer` throws
`SDP_END_POINT_PROCESS_ANSWER_ERROR`, which it does only after the engine rejected the
answer, `answerProcessed` is true after it and stays true through any further calls;
every later `processAnswer` of a non-empty body that `str_to_sdp` accepts throws
`SDP_END_POINT_ANSWER_ALREADY_PROCCESED` with no signal emitted to the engine, and no
later `processAnswer` at all, whatever its body and the engine's answers, returns. -/
theorem C13_rejected_answer_is_permanent (gst : GstSdp) (w : World) (eng1 eng2 : Engine)
    (answer1 answer2 : String) (sdp2 : GstSDPMessage) (between : List (Call × Engine))
    (hrej : (w.call gst (Call.processAnswer answer1) eng1).result
      = Except.error ⟨ErrorCode.SDP_END_POINT_PROCESS_ANSWER_ERROR, "Error processing answer"⟩)
    (hne2 : answer2.isEmpty = false) (hwf2 : str_to_sdp gst answer2 = Except.ok sdp2) :
    (w.call gst (Call.processAnswer answer1) eng1).events
        = [Event.emit "process-answer" w.endpoint.sessId]
      ∧ (w.call gst (Call.processAnswer answer1) eng1).endpoint.answerProcessed = true
      ∧ ((w.call gst (Call.processAnswer answer1) eng1).world.calls gst
          between).endpoint.answerProcessed = true
      ∧ (((w.call gst (Call.processAnswer answer1) eng1).world.calls gst between).call gst
          (Call.processAnswer answer2) eng2).result
        = Except.error ⟨ErrorCode.SDP_END_POINT_ANSWER_ALREADY_PROCCESED,
            "Sdp Answer already processed"⟩
      ∧ (((w.call gst (Call.processAnswer answer1) eng1).world.calls gst between).call gst
          (Call.processAnswer answer2) eng2).events = []
      ∧ (∀ (answer : String) (eng : Engine),
          succeeded (((w.call gst (Call.processAnswer answer1) eng1).world.calls gst
            between).call gst (Call.processAnswer answer) eng).result = false) := by
  have hg := processAnswer_error_guards gst eng1 w.endpoint w.pipe answer1 hrej
  have hmono := calls_guards_mono gst between (w.call gst (Call.processAnswer answer1) eng1).world
  have hw := hmono.2.1 hg.1
  have ha := hmono.2.2 hg.2.1
  refine ⟨hg.2.2.2, hg.2.1, ha, ?_, ?_, ?_⟩
  · exact (processAnswer_of_answered gst eng2 _ _ answer2 sdp2 hw ha hne2 hwf2).1
  · exact (processAnswer_of_answered gst eng2 _ _ answer2 sdp2 hw ha hne2 hwf2).2.2.2
  · intro answer eng
    exact processAnswer_fails_of_answered gst eng _ _ answer ha

/-- C13 at a concrete input: after a `generateOffer` that returned, the engine rejects the
answer `v=0`; after a further `generateOffer` and `processOffer`, a `processAnswer` that
the engine would accept throws "answer already processed". -/
theorem C13_rejected_answer_is_permanent_witness :
    succeeded (worldSample.call gstSample Call.generateOffer engineOk).result = true
      ∧ engineFail.process_answer sdpV0 = false
      ∧ ((worldSample.call gstSample Call.generateOffer engineOk).world.call gstSample
          (Call.processAnswer "v=0") engineFail).result
        = Except.error ⟨ErrorCode.SDP_END_POINT_PROCESS_ANSWER_ERROR, "Error processing answer"⟩
      ∧ ("v=0" : String).isEmpty = false
      ∧ str_to_sdp gstSample "v=0" = Except.ok sdpV0
      ∧ ((((worldSample.call gstSample Call.generateOffer engineOk).world.call gstSample
          (Call.processAnswer "v=0") engineFail).world.calls gstSample
            [(Call.generateOffer, engineOk), (Call.processOffer "v=0", engineOk)]).call
              gstSample (Call.processAnswer "v=0") engineOk).result
        = Except.error ⟨ErrorCode.SDP_END_POINT_ANSWER_ALREADY_PROCCESED,
            "Sdp Answer already processed"⟩
      ∧ ((((worldSample.call gstSample Call.generateOffer engineOk).world.call gstSample
          (Call.processAnswer "v=0") engineFail).world.calls gstSample
            [(Call.generateOffer, engineOk), (Call.processOffer "v=0", engineOk)]).call
              gstSample (Call.processAnswer "v=0") engineOk).events = [] :=
  ⟨rfl, rfl, rfl, rfl, rfl,
    (C13_rejected_answer_is_permanent gstSample
      (worldSample.call gstSample Call.generateOffer engineOk).world engineFail engineOk
      "v=0" "v=0" sdpV0 [(Call.generateOffer, engineOk), (Call.processOffer "v=0", engineOk)]
      rfl rfl rfl).2.2.2.1,
    (C13_rejected_answer_is_permanent gstSample
      (worldSample.call gstSample Call.generateOffer engineOk).world engineFail engineOk
      "v=0" "v=0" sdpV0 [(Call.generateOffer, engineOk), (Call.processOffer "v=0", engineOk)]
      rfl rfl rfl).2.2.2.2.1⟩

/-- C14, as stated, fails: with `7` in the audio RTP slot and `8` in the audio RTCP slot,
`setSockets (8, 7, NULL, NULL)` closes `7` and `8` and stores both. -/
theorem C14_pool_keeps_closed_handle_counterexample :
    (poolOf 7 8 NULL NULL).slots = [7, 8, NULL, NULL]
      ∧ ((poolOf 7 8 NULL NULL).setSockets 8 7 NULL NULL).2
        = [Event.rtp_socket_close 7, Event.rtp_socket_close 8]
      ∧ ((poolOf 7 8 NULL NULL).setSockets 8 7 NULL NULL).1.slots = [8, 7, NULL, NULL]
      ∧ Event.rtp_socket_close 7 ∈ ((poolOf 7 8 NULL NULL).setSockets 8 7 NULL NULL).2
      ∧ 7 ∈ ((poolOf 7 8 NULL NULL).setSockets 8 7 NULL NULL).1.slots :=
  ⟨rfl, rfl, rfl, by decide, by decide⟩

/-- C14, amended: a slot never keeps the handle that was closed for it.  For every pool
state and every four new handles, a slot whose old handle `setSockets` closes stores a
different handle afterwards.  A closed handle is kept only through another slot: no
handle that the call closes is stored in any of the four slots after the call if and
only if no new handle equals the old handle of a different slot that the call closes
(one that is not null and is replaced by a different handle).  In particular this holds
when no new handle equals the non-null old handle of a different slot. -/
theorem C14_slot_never_keeps_its_closed_handle (self : MediaPipelineImpl)
    (a b c d : GSocket) :
    (self.setSockets a b c d).1.slots = [a, b, c, d]
      ∧ ((spec_slot_replacement self.rtp_socket_reuse_audio a ≠ [] →
            (self.setSockets a b c d).1.rtp_socket_reuse_audio ≠ self.rtp_socket_reuse_audio)
        ∧ (spec_slot_replacement self.rtcp_socket_reuse_audio b ≠ [] →
            (self.setSockets a b c d).1.rtcp_socket_reuse_audio ≠ self.rtcp_socket_reuse_audio)
        ∧ (spec_slot_replacement self.rtp_socket_reuse_video c ≠ [] →
            (self.setSockets a b c d).1.rtp_socket_reuse_video ≠ self.rtp_socket_reuse_video)
        ∧ (spec_slot_replacement self.rtcp_socket_reuse_video d ≠ [] →
            (self.setSockets a b c d).1.rtcp_socket_reuse_video
              ≠ self.rtcp_socket_reuse_video))
      ∧ ((∀ h : GSocket, Event.rtp_socket_close h ∈ (self.setSockets a b c d).2 →
            h ∉ (self.setSockets a b c d).1.slots) ↔
          (∀ i j : Nat, i ≠ j → ∀ h : GSocket, self.slots[j]? = some h → h ≠ NULL →
            [a, b, c, d][j]? ≠ some h → [a, b, c, d][i]? ≠ some h))
      ∧ ((∀ i j : Nat, i ≠ j → ∀ h : GSocket, self.slots[j]? = some h → h ≠ NULL →
            [a, b, c, d][i]? ≠ some h) →
          ∀ h : GSocket, Event.rtp_socket_close h ∈ (self.setSockets a b c d).2 →
            h ∉ (self.setSockets a b c d).1.slots) := by
  have hslots : (self.setSockets a b c d).1.slots = [a, b, c, d] := rfl
  have hown : ∀ old new : GSocket, spec_slot_replacement old new ≠ [] → new ≠ old := by
    intro old new hne hEq
    apply hne
    by_cases h1 : old = NULL <;> simp [spec_slot_replacement, h1, hEq]
  have hsuff : (∀ i j : Nat, i ≠ j → ∀ h : GSocket, self.slots[j]? = some h → h ≠ NULL →
        [a, b, c, d][j]? ≠ some h → [a, b, c, d][i]? ≠ some h) →
      ∀ h : GSocket, Event.rtp_socket_close h ∈ (self.setSockets a b c d).2 →
        h ∉ (self.setSockets a b c d).1.slots := by
    intro hcross h hmem hstored
    rw [hslots] at hstored
    rw [mem_setSockets_closes] at hmem
    obtain ⟨hn, hheld⟩ := hmem
    have k : ∀ i j : Nat, i ≠ j → ∀ x y z : GSocket, self.slots[j]? = some x →
        [a, b, c, d][i]? = some y → [a, b, c, d][j]? = some z → x = h → z ≠ h → y ≠ h := by
      intro i j hij x y z hx hy hz hxh hzh hyh
      refine hcross i j hij x hx (hxh ▸ hn) ?_ (by rw [hy, hyh, hxh])
      rw [hz, hxh]
      intro hc
      injection hc with hc
      exact hzh hc
    simp only [List.mem_cons, List.mem_singleton, List.not_mem_nil, or_false] at hstored
    rcases hheld with ⟨e, hd⟩ | ⟨e, hd⟩ | ⟨e, hd⟩ | ⟨e, hd⟩ <;>
      rcases hstored with s | s | s | s
    · exact hd s.symm
    · exact k 1 0 (by decide) _ _ _ rfl rfl rfl e hd s.symm
    · exact k 2 0 (by decide) _ _ _ rfl rfl rfl e hd s.symm
    · exact k 3 0 (by decide) _ _ _ rfl rfl rfl e hd s.symm
    · exact k 0 1 (by decide) _ _ _ rfl rfl rfl e hd s.symm
    · exact hd s.symm
    · exact k 2 1 (by decide) _ _ _ rfl rfl rfl e hd s.symm
    · exact k 3 1 (by decide) _ _ _ rfl rfl rfl e hd s.symm
    · exact k 0 2 (by decide) _ _ _ rfl rfl rfl e hd s.symm
    · exact k 1 2 (by decide) _ _ _ rfl rfl rfl e hd s.symm
    · exact hd s.symm
    · exact k 3 2 (by decide) _ _ _ rfl rfl rfl e hd s.symm
    · exact k 0 3 (by decide) _ _ _ rfl rfl rfl e hd s.symm
    · exact k 1 3 (by decide) _ _ _ rfl rfl rfl e hd s.symm
    · exact k 2 3 (by decide) _ _ _ rfl rfl rfl e hd s.symm
    · exact hd s.symm
  refine ⟨hslots, ⟨hown _ _, hown _ _, hown _ _, hown _ _⟩, ⟨?_, hsuff⟩, ?_⟩
  · intro hsafe i j _ h hj hn hjnew hi
    have hstored : h ∈ (self.setSockets a b c d).1.slots := by
      rw [hslots]
      exact List.getElem?_mem hi
    have hclosed : Event.rtp_socket_close h ∈ (self.setSockets a b c d).2 := by
      rw [mem_setSockets_closes]
      refine ⟨hn, ?_⟩
      rcases j with _ | _ | _ | _ | j
      · simp [MediaPipelineImpl.slots] at hj hjnew
        exact Or.inl ⟨hj, hjnew⟩
      · simp [MediaPipelineImpl.slots] at hj hjnew
        exact Or.inr (Or.inl ⟨hj, hjnew⟩)
      · simp [MediaPipelineImpl.slots] at hj hjnew
        exact Or.inr (Or.inr (Or.inl ⟨hj, hjnew⟩))
      · simp [MediaPipelineImpl.slots] at hj hjnew
        exact Or.inr (Or.inr (Or.inr ⟨hj, hjnew⟩))
      · simp [MediaPipelineImpl.slots] at hj
    exact hsafe h hclosed hstored
  · intro hcross
    exact hsuff (fun i j hij h hj hn _ => hcross i j hij h hj hn)

/-- C14, amended, at a concrete input: the pool holds `7` and `8` and is given `9` and
`8`; no new handle is the old handle of a different slot, `7` is closed and not kept. -/
theorem C14_slot_never_keeps_its_closed_handle_witness :
    ((poolOf 7 8 NULL NULL).setSockets 9 8 NULL NULL).2 = [Event.rtp_socket_close 7]
      ∧ ((poolOf 7 8 NULL NULL).setSockets 9 8 NULL NULL).1.slots = [9, 8, NULL, NULL]
      ∧ (∀ h : GSocket,
          Event.rtp_socket_close h ∈ ((poolOf 7 8 NULL NULL).setSockets 9 8 NULL NULL).2 →
            h ∉ ((poolOf 7 8 NULL NULL).setSockets 9 8 NULL NULL).1.slots) :=
  ⟨rfl, rfl,
    (C14_slot_never_keeps_its_closed_handle (poolOf 7 8 NULL NULL) 9 8 NULL NULL).2.2.2
      (by
        intro i j hij h hj hn hi
        have hj2 : j < 4 := by
          by_contra hlt
          have : (poolOf 7 8 NULL NULL).slots[j]? = none :=
            List.getElem?_eq_none (by simp [MediaPipelineImpl.slots]; omega)
          rw [this] at hj
          cases hj
        have hi2 : i < 4 := by
          by_contra hlt
          have : ([9, 8, NULL, NULL] : List GSocket)[i]? = none :=
            List.getElem?_eq_none (by simp; omega)
          rw [this] at hi
          cases hi
        interval_cases j <;> interval_cases i <;>
          simp_all [MediaPipelineImpl.slots, poolOf, MediaPipelineImpl.new, NULL] <;>
          exact absurd (hj.trans hi.symm) (by decide))⟩

end kurento
